import Mathlib

/-!
# Hydroform: Gardener provisioner and Terraform operator

A shallow embedding of `internal/gardener/gardener.go`,
`internal/operator/terraform.go` and `install/installation/checks.go`, followed by
theorems about input validation, status translation, template expansion, cluster
creation and deletion, the provisioner's four operations and the installation checker.

Go values are modelled as follows: `string` is `String`, `int` is `Int`,
`interface{}` is `Value`, a `map[string]interface{}` is an association list read
with `Config.get?` (first binding wins), `error` is `Option String` (the message,
`none` for `nil`), a pointer is an `Option`. A method that calls collaborators
returns a `Run`: the calls it made, in order, and its `Outcome` (returned or panicked).
-/

namespace Hydroform

/-! ## Substring search on character lists -/

/-- Whether the list `l` begins with the list `m`. -/
def startsWith : List Char → List Char → Bool
  | _, [] => true
  | [], _ :: _ => false
  | c :: l, d :: m => c == d && startsWith l m

/-- Number of positions of `l` at which an occurrence of `m` begins (for non-empty `m`). -/
def occ (m : List Char) : List Char → Nat
  | [] => 0
  | c :: l => (if startsWith (c :: l) m then 1 else 0) + occ m l

/-- The list `m` occurs in `l` as a contiguous block. -/
def Occurs (m l : List Char) : Prop := ∃ s t, l = s ++ (m ++ t)

/-- The text `msg` contains the text `marker`. -/
def Mentions (msg marker : String) : Prop := Occurs marker.data msg.data

/-- Number of occurrences of the text `marker` in the text `doc`. -/
def count (doc marker : String) : Nat := occ marker.data doc.data

/-- At every position of `l`, whether `m` begins there is already decided inside `l`:
either `m` fits, or a character of `l` differs from `m`. -/
def closedFor (m : List Char) : List Char → Bool
  | [] => true
  | c :: l => (startsWith (c :: l) m || !(startsWith m (c :: l))) && closedFor m l

/-- No position of `l` can begin an occurrence of `m`, whatever text follows `l`. -/
def freeOf (m : List Char) : List Char → Bool
  | [] => true
  | c :: l => !(startsWith (c :: l) m) && !(startsWith m (c :: l)) && freeOf m l

/-! ## Data model (package `types`) -/

/-- A Go `interface{}` value as it occurs in configuration maps and engine outputs:
a `string`, an `int`, a value of a named string type (such as `types.ProviderType`),
or a non-nil value of any other dynamic type, not of string or integer kind, kept with
its `%v` rendering. -/
inductive Value where
  | str (s : String)
  | int (n : Int)
  | named (s : String)
  | other (shown : String)
  deriving DecidableEq, Repr

/-- A Go `map[string]interface{}`. -/
abbrev Config := List (String × Value)

/-- Map read `m[k]` with the comma-ok result folded into the option. -/
def Config.get? (m : Config) (k : String) : Option Value :=
  match m with
  | [] => none
  | (k', v) :: rest => if k' = k then some v else Config.get? rest k

/-- Map write `m[k] = v`. -/
def Config.set (m : Config) (k : String) (v : Value) : Config :=
  (k, v) :: m

/-- Presence test `_, ok := m[k]`. -/
def Config.has (m : Config) (k : String) : Bool :=
  (m.get? k).isSome

/-- Modelled from the spec: the provider type tags of package `types` (GCP, AWS,
Azure, Gardener), which is not among the sources; the three cloud identifiers are
the ones named by the validation message `gcp, azure, aws`. -/
abbrev ProviderType := String

def GCP : ProviderType := "gcp"
def AWS : ProviderType := "aws"
def Azure : ProviderType := "azure"
def Gardener : ProviderType := "gardener"

/-- Modelled from the spec: the fixed phase enumeration of package `types`
(Pending, Provisioning, Provisioned, Errored, Unknown). -/
inductive Phase where
  | Pending
  | Provisioning
  | Provisioned
  | Errored
  | Unknown
  deriving DecidableEq, Repr

/-- The engine state `terraform.State`, reduced to what `Create` reads: the
outputs of each module. -/
structure ModuleState where
  Outputs : Config
  deriving DecidableEq, Repr

structure State where
  Modules : List ModuleState
  deriving DecidableEq, Repr

/-- `types.InternalState`; the engine state is a pointer and may be nil. -/
structure InternalState where
  TerraformState : Option State
  deriving DecidableEq, Repr

structure ClusterStatus where
  Phase : Phase
  deriving DecidableEq, Repr

/-- `types.ClusterInfo`; the certificate is a list of bytes, each a number below 256. -/
structure ClusterInfo where
  Endpoint : String
  CertificateAuthorityData : List Nat
  InternalState : Option InternalState
  Status : Option ClusterStatus
  deriving DecidableEq, Repr

structure Cluster where
  Name : String
  NodeCount : Int
  DiskSizeGB : Int
  MachineType : String
  KubernetesVersion : String
  Location : String
  ClusterInfo : Option ClusterInfo

/-- `types.Provider`; the field `Type` is written `Type_`. -/
structure Provider where
  Type_ : ProviderType
  ProjectName : String
  CredentialsFilePath : String
  CustomConfigurations : Config

/-! ## Error formats (package `errs`) -/

/-- Modelled from the spec: the format constants `CannotBeEmpty`, `CannotBeLess`
and `Custom` of package `internal/errs`, which is not among the sources. Each is a
fixed-format sentence into which the field (and, for `CannotBeLess`, the bound) is
substituted; the literal text around the substituted values is left open. -/
structure Errs where
  emptyPre : String
  emptyPost : String
  lessPre : String
  lessMid : String
  lessPost : String
  customPre : String
  customPost : String

/-- Rendering of `fmt.Sprintf(errs.CannotBeEmpty, field)`. -/
def Errs.CannotBeEmpty (e : Errs) (field : String) : String :=
  e.emptyPre ++ field ++ e.emptyPost

/-- Rendering of `fmt.Sprintf(errs.CannotBeLess, field, bound)`. -/
def Errs.CannotBeLess (e : Errs) (field : String) (bound : Nat) : String :=
  e.lessPre ++ field ++ e.lessMid ++ toString bound ++ e.lessPost

/-- Rendering of `fmt.Sprintf(errs.Custom, text)`. -/
def Errs.Custom (e : Errs) (text : String) : String :=
  e.customPre ++ text ++ e.customPost

/-- A text without the capital letters that begin the field names
(`Cluster.…`, `Provider.…`). -/
def plainText (s : String) : Bool :=
  s.data.all (fun c => c != 'C' && c != 'P')

/-- The literal text of the three formats has no capital `C` or `P`. -/
def Errs.plain (e : Errs) : Bool :=
  plainText e.emptyPre && plainText e.emptyPost && plainText e.lessPre &&
  plainText e.lessMid && plainText e.lessPost && plainText e.customPre &&
  plainText e.customPost

/-! ## Regular expressions (the fragment of `regexp` used by `validate`) -/

/-- Syntax of the regular expressions in use: a character class given by its
ranges, concatenation, `r?`, and bounded repetition `r{0,n}`. -/
inductive Re where
  | cls (ranges : List (Char × Char))
  | seq (a b : Re)
  | opt (a : Re)
  | upTo (a : Re) (n : Nat)

/-- Membership of a character in a class. -/
def inClass (ranges : List (Char × Char)) (c : Char) : Bool :=
  ranges.any (fun r => decide (r.1.toNat ≤ c.toNat) && decide (c.toNat ≤ r.2.toNat))

/-- A matcher consumes a prefix of the input and hands the rest to a continuation. -/
abbrev Matcher := List Char → (List Char → Bool) → Bool

/-- At most `n` repetitions of a matcher. -/
def repeatUpTo (m : Matcher) : Nat → Matcher
  | 0, s, k => k s
  | n + 1, s, k => m s (fun rest => repeatUpTo m n rest k) || k s

/-- Some prefix of the input matches the expression and the continuation accepts the rest. -/
def Re.run : Re → Matcher
  | .cls ranges => fun s k =>
      match s with
      | [] => false
      | c :: rest => inClass ranges c && k rest
  | .seq a b => fun s k => a.run s (fun rest => b.run rest k)
  | .opt a => fun s k => a.run s k || k s
  | .upTo a n => repeatUpTo a.run n

/-- The whole text matches the expression (the pattern is anchored by `^` and `$`). -/
def Re.matchString (r : Re) (s : String) : Bool :=
  r.run s.data (fun rest => rest.isEmpty)

/-- The pattern `^(?:[a-z](?:[-a-z0-9]{0,19}[a-z0-9])?)$` without its anchors. -/
def clusterNamePattern : Re :=
  .seq (.cls [('a', 'z')])
    (.opt (.seq (.upTo (.cls [('-', '-'), ('a', 'z'), ('0', '9')]) 19)
      (.cls [('a', 'z'), ('0', '9')])))

/-! ## `gardenerProvisioner.validate` -/

/-- Text of the violation reported for the cluster name. -/
def nameRule : String :=
  "Cluster.Name must start with a lowercase letter followed by up to 19 lowercase letters, " ++
  "numbers, or hyphens, and cannot end with a hyphen"

/-- Text of the violation reported for an unrecognised target provider. -/
def targetRule : String :=
  "Provider.CustomConfigurations['target_provider'] has to be one of: gcp, azure, aws"

/-- Field name of a custom configuration key as it is written in the messages. -/
def customField (key : String) : String :=
  "Provider.CustomConfigurations['" ++ key ++ "']"

/-- One guarded statement `if cond { errMessage += piece }`. -/
def appendIf (cond : Bool) (errMessage piece : String) : String :=
  if cond then errMessage ++ piece else errMessage

/-- The comparison `targetProvider == string(t)` of an interface value with a string. -/
def isTarget (targetProvider : Option Value) (t : ProviderType) : Bool :=
  decide (targetProvider = some (Value.str t))

/-- The text accumulated in `errMessage` by `validate`. -/
def validateMessage (e : Errs) (cluster : Cluster) (provider : Provider) : String :=
  let errMessage := ""
  -- Cluster
  let errMessage := appendIf (decide (cluster.NodeCount < 1)) errMessage
    (e.CannotBeLess "Cluster.NodeCount" 1)
  let errMessage := appendIf (!clusterNamePattern.matchString cluster.Name) errMessage
    (e.Custom nameRule)
  let errMessage := appendIf (cluster.Location == "") errMessage
    (e.CannotBeEmpty "Cluster.Location")
  let errMessage := appendIf (cluster.MachineType == "") errMessage
    (e.CannotBeEmpty "Cluster.MachineType")
  let errMessage := appendIf (cluster.KubernetesVersion == "") errMessage
    (e.CannotBeEmpty "Cluster.KubernetesVersion")
  let errMessage := appendIf (decide (cluster.DiskSizeGB ≤ 0)) errMessage
    (e.CannotBeLess "Cluster.DiskSizeGB" 0)
  -- Provider
  let errMessage := appendIf (provider.CredentialsFilePath == "") errMessage
    (e.CannotBeEmpty "Provider.CredentialsFilePath")
  let errMessage := appendIf (provider.ProjectName == "") errMessage
    (e.CannotBeEmpty "Provider.ProjectName")
  -- Custom gardener configuration
  let custom := provider.CustomConfigurations
  let targetProvider := custom.get? "target_provider"
  let errMessage :=
    match targetProvider with
    | some _ =>
      appendIf (!isTarget targetProvider GCP && !isTarget targetProvider AWS &&
          !isTarget targetProvider Azure) errMessage (e.Custom targetRule)
    | none => errMessage ++ e.CannotBeEmpty (customField "target_provider")
  let errMessage := appendIf (!custom.has "target_seed") errMessage
    (e.CannotBeEmpty (customField "target_seed"))
  let errMessage := appendIf (!custom.has "target_secret") errMessage
    (e.CannotBeEmpty (customField "target_secret"))
  let errMessage := appendIf (!custom.has "disk_type") errMessage
    (e.CannotBeEmpty (customField "disk_type"))
  let errMessage := appendIf (!custom.has "autoscaler_min") errMessage
    (e.CannotBeEmpty (customField "autoscaler_min"))
  let errMessage := appendIf (!custom.has "autoscaler_max") errMessage
    (e.CannotBeEmpty (customField "autoscaler_max"))
  let errMessage := appendIf (!custom.has "max_surge") errMessage
    (e.CannotBeEmpty (customField "max_surge"))
  let errMessage := appendIf (!custom.has "max_unavailable") errMessage
    (e.CannotBeEmpty (customField "max_unavailable"))
  let errMessage := appendIf (!custom.has "workercidr") errMessage
    (e.CannotBeEmpty (customField "workercidr"))
  let errMessage := appendIf (!custom.has "zone" &&
      (isTarget targetProvider GCP || isTarget targetProvider AWS)) errMessage
    (e.CannotBeEmpty (customField "zone"))
  let errMessage := appendIf (!custom.has "publicscidr" && isTarget targetProvider AWS)
    errMessage (e.CannotBeEmpty (customField "publicscidr"))
  let errMessage := appendIf (!custom.has "vpccidr" && isTarget targetProvider AWS)
    errMessage (e.CannotBeEmpty (customField "vpccidr"))
  let errMessage := appendIf (!custom.has "internalscidr" && isTarget targetProvider AWS)
    errMessage (e.CannotBeEmpty (customField "internalscidr"))
  let errMessage := appendIf (!custom.has "vnetcidr" && isTarget targetProvider Azure)
    errMessage (e.CannotBeEmpty (customField "vnetcidr"))
  errMessage

/-- The function `validate`: `none` is the nil error, `some msg` an error with that message. -/
def validate (e : Errs) (cluster : Cluster) (provider : Provider) : Option String :=
  let errMessage := validateMessage e cluster provider
  if errMessage ≠ "" then
    some ("input validation failed with the following information: " ++ errMessage)
  else
    none

/-! ## The rules of `validate`, field by field -/

/-- The fields (typed fields and custom keys) on which `validate` reports. -/
inductive Field where
  | nodeCount
  | clusterName
  | location
  | machineType
  | kubernetesVersion
  | diskSizeGB
  | credentialsFilePath
  | projectName
  | targetProvider
  | targetSeed
  | targetSecret
  | diskType
  | autoscalerMin
  | autoscalerMax
  | maxSurge
  | maxUnavailable
  | workercidr
  | zone
  | publicscidr
  | vpccidr
  | internalscidr
  | vnetcidr
  deriving DecidableEq, Repr

/-- The name under which a field appears in the messages of `validate`. -/
def Field.label : Field → String
  | .nodeCount => "Cluster.NodeCount"
  | .clusterName => "Cluster.Name"
  | .location => "Cluster.Location"
  | .machineType => "Cluster.MachineType"
  | .kubernetesVersion => "Cluster.KubernetesVersion"
  | .diskSizeGB => "Cluster.DiskSizeGB"
  | .credentialsFilePath => "Provider.CredentialsFilePath"
  | .projectName => "Provider.ProjectName"
  | .targetProvider => customField "target_provider"
  | .targetSeed => customField "target_seed"
  | .targetSecret => customField "target_secret"
  | .diskType => customField "disk_type"
  | .autoscalerMin => customField "autoscaler_min"
  | .autoscalerMax => customField "autoscaler_max"
  | .maxSurge => customField "max_surge"
  | .maxUnavailable => customField "max_unavailable"
  | .workercidr => customField "workercidr"
  | .zone => customField "zone"
  | .publicscidr => customField "publicscidr"
  | .vpccidr => customField "vpccidr"
  | .internalscidr => customField "internalscidr"
  | .vnetcidr => customField "vnetcidr"

/-- All fields, in the order in which `validate` examines them. -/
def Field.all : List Field :=
  [.nodeCount, .clusterName, .location, .machineType, .kubernetesVersion, .diskSizeGB,
   .credentialsFilePath, .projectName, .targetProvider, .targetSeed, .targetSecret,
   .diskType, .autoscalerMin, .autoscalerMax, .maxSurge, .maxUnavailable, .workercidr,
   .zone, .publicscidr, .vpccidr, .internalscidr, .vnetcidr]

/-- The custom configuration names `t` as its target provider. -/
def targetIs (provider : Provider) (t : ProviderType) : Prop :=
  provider.CustomConfigurations.get? "target_provider" = some (Value.str t)

instance (provider : Provider) (t : ProviderType) : Decidable (targetIs provider t) := by
  unfold targetIs; infer_instance

/-- The custom configuration has an entry for `key`. -/
def present (provider : Provider) (key : String) : Prop :=
  provider.CustomConfigurations.get? key ≠ none

instance (provider : Provider) (key : String) : Decidable (present provider key) := by
  unfold present; infer_instance

/-- The rule of each field as `validate` tests it: the negation of the guard of the
field's report. The rule of the cluster name is the pattern of the code; the name rule
in the words of the specification is `specNameRule`. -/
def Field.satisfied (cluster : Cluster) (provider : Provider) : Field → Prop
  | .nodeCount => 1 ≤ cluster.NodeCount
  | .clusterName => clusterNamePattern.matchString cluster.Name = true
  | .location => cluster.Location ≠ ""
  | .machineType => cluster.MachineType ≠ ""
  | .kubernetesVersion => cluster.KubernetesVersion ≠ ""
  | .diskSizeGB => 0 < cluster.DiskSizeGB
  | .credentialsFilePath => provider.CredentialsFilePath ≠ ""
  | .projectName => provider.ProjectName ≠ ""
  | .targetProvider => targetIs provider GCP ∨ targetIs provider AWS ∨ targetIs provider Azure
  | .targetSeed => present provider "target_seed"
  | .targetSecret => present provider "target_secret"
  | .diskType => present provider "disk_type"
  | .autoscalerMin => present provider "autoscaler_min"
  | .autoscalerMax => present provider "autoscaler_max"
  | .maxSurge => present provider "max_surge"
  | .maxUnavailable => present provider "max_unavailable"
  | .workercidr => present provider "workercidr"
  | .zone => targetIs provider GCP ∨ targetIs provider AWS → present provider "zone"
  | .publicscidr => targetIs provider AWS → present provider "publicscidr"
  | .vpccidr => targetIs provider AWS → present provider "vpccidr"
  | .internalscidr => targetIs provider AWS → present provider "internalscidr"
  | .vnetcidr => targetIs provider Azure → present provider "vnetcidr"

instance (cluster : Cluster) (provider : Provider) (f : Field) :
    Decidable (f.satisfied cluster provider) := by
  cases f <;> (dsimp only [Field.satisfied]; infer_instance)

/-- The name rule in the words of the specification: the name starts with a lowercase
letter, consists only of lowercase letters, digits and hyphens, is at most 20
characters long in total, and does not end with a hyphen. -/
def specNameRule (name : String) : Bool :=
  match name.data with
  | [] => false
  | c :: rest =>
    inClass [('a', 'z')] c &&
    (c :: rest).all (inClass [('-', '-'), ('a', 'z'), ('0', '9')]) &&
    decide ((c :: rest).length ≤ 20) &&
    ((c :: rest).getLast? != some '-')

/-- A violation report before formatting: which format, and the values put into it. -/
inductive Report where
  | cannotBeEmpty (field : String)
  | cannotBeLess (field : String) (bound : Nat)
  | custom (text : String)

/-- Formatting of a report. -/
def Errs.render (e : Errs) : Report → String
  | .cannotBeEmpty field => e.CannotBeEmpty field
  | .cannotBeLess field bound => e.CannotBeLess field bound
  | .custom text => e.Custom text

/-- The values substituted into the format of a report. -/
def Report.values : Report → List String
  | .cannotBeEmpty field => [field]
  | .cannotBeLess field bound => [field, toString bound]
  | .custom text => [text]

/-- The reports `validate` can append, in source order, each with the field it is about. -/
def reports : List (Field × Report) :=
  [ (.nodeCount, .cannotBeLess "Cluster.NodeCount" 1),
    (.clusterName, .custom nameRule),
    (.location, .cannotBeEmpty "Cluster.Location"),
    (.machineType, .cannotBeEmpty "Cluster.MachineType"),
    (.kubernetesVersion, .cannotBeEmpty "Cluster.KubernetesVersion"),
    (.diskSizeGB, .cannotBeLess "Cluster.DiskSizeGB" 0),
    (.credentialsFilePath, .cannotBeEmpty "Provider.CredentialsFilePath"),
    (.projectName, .cannotBeEmpty "Provider.ProjectName"),
    (.targetProvider, .custom targetRule),
    (.targetProvider, .cannotBeEmpty (customField "target_provider")),
    (.targetSeed, .cannotBeEmpty (customField "target_seed")),
    (.targetSecret, .cannotBeEmpty (customField "target_secret")),
    (.diskType, .cannotBeEmpty (customField "disk_type")),
    (.autoscalerMin, .cannotBeEmpty (customField "autoscaler_min")),
    (.autoscalerMax, .cannotBeEmpty (customField "autoscaler_max")),
    (.maxSurge, .cannotBeEmpty (customField "max_surge")),
    (.maxUnavailable, .cannotBeEmpty (customField "max_unavailable")),
    (.workercidr, .cannotBeEmpty (customField "workercidr")),
    (.zone, .cannotBeEmpty (customField "zone")),
    (.publicscidr, .cannotBeEmpty (customField "publicscidr")),
    (.vpccidr, .cannotBeEmpty (customField "vpccidr")),
    (.internalscidr, .cannotBeEmpty (customField "internalscidr")),
    (.vnetcidr, .cannotBeEmpty (customField "vnetcidr")) ]

/-- The guards of the statements of `validate`, in the order of `reports`. -/
def guards (cluster : Cluster) (provider : Provider) : List Bool :=
  let custom := provider.CustomConfigurations
  let targetProvider := custom.get? "target_provider"
  [ decide (cluster.NodeCount < 1),
    !clusterNamePattern.matchString cluster.Name,
    cluster.Location == "",
    cluster.MachineType == "",
    cluster.KubernetesVersion == "",
    decide (cluster.DiskSizeGB ≤ 0),
    provider.CredentialsFilePath == "",
    provider.ProjectName == "",
    targetProvider.isSome && (!isTarget targetProvider GCP && !isTarget targetProvider AWS &&
      !isTarget targetProvider Azure),
    targetProvider.isNone,
    !custom.has "target_seed",
    !custom.has "target_secret",
    !custom.has "disk_type",
    !custom.has "autoscaler_min",
    !custom.has "autoscaler_max",
    !custom.has "max_surge",
    !custom.has "max_unavailable",
    !custom.has "workercidr",
    !custom.has "zone" && (isTarget targetProvider GCP || isTarget targetProvider AWS),
    !custom.has "publicscidr" && isTarget targetProvider AWS,
    !custom.has "vpccidr" && isTarget targetProvider AWS,
    !custom.has "internalscidr" && isTarget targetProvider AWS,
    !custom.has "vnetcidr" && isTarget targetProvider Azure ]

/-- The reports whose guard holds, in source order. -/
def raised (cluster : Cluster) (provider : Provider) : List (Field × Report) :=
  ((guards cluster provider).zip reports).filterMap
    (fun gr => if gr.1 then some gr.2 else none)

/-- The text of a list of reports, appended in order. -/
def renderAll (e : Errs) : List (Field × Report) → String
  | [] => ""
  | r :: rest => e.render r.2 ++ renderAll e rest

/-- Every value of every report about another field is free of the label of `f`, and
the label of `f` begins with a capital `C` or `P`. -/
def labelCheck (f : Field) : Bool :=
  (f.label.data.head? == some 'C' || f.label.data.head? == some 'P') &&
  reports.all (fun r =>
    r.1 == f || r.2.values.all (fun v => freeOf f.label.data v.data))

/-- The leading value of every report begins with the label of its field. -/
def ownerCheck : Bool :=
  reports.all (fun r =>
    match r.2.values with
    | [] => false
    | v :: _ => startsWith v.data r.1.label.data)

/-- The fixed opening of the error message of `validate`. -/
def validatePrefix : String :=
  "input validation failed with the following information: "

/-! ## Status translation: `convertGardenertatus` -/

/-- Result of running code that may stop with a run-time panic. -/
inductive Outcome (α : Type) where
  | returned (a : α)
  | panicked
  deriving DecidableEq, Repr

/-- The `LastOperationState` constants of the Gardener API. -/
def LastOperationStateProcessing : String := "Processing"
def LastOperationStateSucceeded : String := "Succeeded"
def LastOperationStateError : String := "Error"
def LastOperationStateFailed : String := "Failed"
def LastOperationStatePending : String := "Pending"
def LastOperationStateAborted : String := "Aborted"

/-- The last-operation record of a shoot, reduced to its state. -/
structure LastOperation where
  State : String
  deriving DecidableEq, Repr

/-- The native shoot status; `LastOperation` is a pointer and may be nil. -/
structure ShootStatus where
  LastOperation : Option LastOperation
  deriving DecidableEq, Repr

/-- The `switch` of `convertGardenertatus` on the last-operation state. -/
def phaseOfState (state : String) : Phase :=
  if state = LastOperationStateProcessing then Phase.Provisioning
  else if state = LastOperationStatePending then Phase.Pending
  else if state = LastOperationStateSucceeded then Phase.Provisioned
  else if state = LastOperationStateError then Phase.Errored
  else if state = LastOperationStateFailed then Phase.Errored
  else if state = LastOperationStateAborted then Phase.Errored
  else Phase.Unknown

/-- The function `convertGardenertatus`; reading `status.LastOperation.State` through a
nil pointer panics. -/
def convertGardenertatus (status : ShootStatus) : Outcome Phase :=
  match status.LastOperation with
  | none => .panicked
  | some op => .returned (phaseOfState op.State)

/-! ## Templates (`text/template` as used by `expandGardenerClusterTemplate`) -/

/-- The constant `gcpClusterTemplate`. -/
def gcpClusterTemplate : String :=
  "\n" ++
  "  variable \"node_count\"    \t\t\x7b\x7d\n" ++
  "  variable \"cluster_name\"  \t\t\x7b\x7d\n" ++
  "  variable \"credentials_file_path\" \t\x7b\x7d\n" ++
  "  variable \"project\"       \t\t\x7b\x7d\n" ++
  "  variable \"location\"      \t\t\x7b\x7d\n" ++
  "  variable \"machine_type\"  \t\t\x7b\x7d\n" ++
  "  variable \"kubernetes_version\"   \t\x7b\x7d\n" ++
  "  variable \"disk_size\" \t\t\t\x7b\x7d\n" ++
  "\n" ++
  "  provider \"google\" \x7b\n" ++
  "    \tcredentials   = \"$\x7bfile(\"$\x7bvar.credentials_file_path\x7d\")\x7d\"\n" ++
  "\tproject       = \"$\x7bvar.project\x7d\"\n" ++
  "  \x7d\n" ++
  "\n" ++
  "  resource \"google_container_cluster\" \"gke_cluster\" \x7b\n" ++
  "    \tname               = \"$\x7bvar.cluster_name\x7d\"\n" ++
  "    \tlocation \t   = \"$\x7bvar.location\x7d\"\n" ++
  "    \tinitial_node_count = \"$\x7bvar.node_count\x7d\"\n" ++
  "    \tmin_master_version = \"$\x7bvar.kubernetes_version\x7d\"\n" ++
  "    \tnode_version       = \"$\x7bvar.kubernetes_version\x7d\"\n" ++
  "    \n" ++
  "    node_config \x7b\n" ++
  "      \tmachine_type = \"$\x7bvar.machine_type\x7d\"\n" ++
  "\t\tdisk_size_gb = \"$\x7bvar.disk_size\x7d\"\n" ++
  "    \x7d\n" ++
  "\n" ++
  "    maintenance_policy \x7b\n" ++
  "      \tdaily_maintenance_window \x7b\n" ++
  "        \tstart_time = \"03:00\"\n" ++
  "      \t\t\x7d\n" ++
  "    \t\x7d\n" ++
  "  \x7d\n" ++
  "\n" ++
  "  output \"endpoint\" \x7b\n" ++
  "    value = \"$\x7bgoogle_container_cluster.gke_cluster.endpoint\x7d\"\n" ++
  "  \x7d\n" ++
  "\n" ++
  "  output \"cluster_ca_certificate\" \x7b\n" ++
  "    value = \"$\x7bgoogle_container_cluster.gke_cluster.master_auth.0.cluster_ca_certificate\x7d\"\n" ++
  "  \x7d\n"

/-- Template text before the first action. -/
def tmplHead : String :=
  "\n" ++
  "variable \"target_provider\"\t\t\t\x7b\x7d\n" ++
  "variable \"target_profile\"\t\t\t\x7b\x7d\n" ++
  "variable \"target_seed\"\t\t\t    \x7b\x7d\n" ++
  "variable \"target_secret\"\t\t\t\x7b\x7d\n" ++
  "variable \"node_count\"    \t\t\t\x7b\x7d\n" ++
  "variable \"cluster_name\"  \t\t\t\x7b\x7d\n" ++
  "variable \"credentials_file_path\" \t\x7b\x7d\n" ++
  "variable \"namespace\"       \t\t\t\x7b\x7d\n" ++
  "variable \"location\"      \t\t\t\x7b\x7d\n" ++
  "variable \"zone\"      \t\t\t\t\x7b\x7d\n" ++
  "variable \"workercidr\"      \t\t\t\x7b\x7d\n" ++
  "variable \"vnetcidr\"\t\t\t\t\t\x7b\x7d\n" ++
  "variable \"vpccidr\" \t\t\t\t\t\x7b\x7d\n" ++
  "variable \"publicscidr\" \t\t\t\t\x7b\x7d\n" ++
  "variable \"internalscidr\" \t\t\t\x7b\x7d\n" ++
  "variable \"machine_type\"  \t\t\t\x7b\x7d\n" ++
  "variable \"kubernetes_version\"   \t\x7b\x7d\n" ++
  "variable \"disk_size\" \t\t\t\t\x7b\x7d\n" ++
  "variable \"disk_type\" \t\t\t\t\x7b\x7d\n" ++
  "variable \"autoscaler_min\" \t\t\t\x7b\x7d\n" ++
  "variable \"autoscaler_max\" \t\t\t\x7b\x7d\n" ++
  "variable \"max_surge\" \t\t\t\t\x7b\x7d\n" ++
  "variable \"max_unavailable\" \t\t\t\x7b\x7d\n" ++
  "\n" ++
  "provider \"gardener\" \x7b\n" ++
  "\tkube_file          = \"$\x7bfile(\"$\x7bvar.credentials_file_path\x7d\")\x7d\"\n" ++
  "\x7d\n" ++
  "\n" ++
  "resource \"gardener_shoot\" \"test_cluster\" \x7b\n" ++
  "\tmetadata \x7b\n" ++
  "\t  name      = \"$\x7bvar.cluster_name\x7d\"\n" ++
  "\t  namespace = \"$\x7bvar.namespace\x7d\"\n" ++
  "  \n" ++
  "\t\x7d\n" ++
  "  \n" ++
  "\tspec \x7b\n" ++
  "\t  cloud \x7b\n" ++
  "\t\tprofile = \"$\x7bvar.target_profile\x7d\"\n" ++
  "\t\tregion  = \"$\x7bvar.location\x7d\"\n" ++
  "\t\tseed    = \"$\x7bvar.target_seed\x7d\"\n" ++
  "\t\tsecret_binding_ref \x7b\n" ++
  "\t\t  name = \"$\x7bvar.target_secret\x7d\"\n" ++
  "\t\t\x7d\n" ++
  "\n" ++
  "\t\t"

/-- Body of the action `if eq (index . "target_provider") "gcp"`. -/
def gcpBlock : String :=
  "\n" ++
  "\t\tgcp \x7b  \n" ++
  "          networks \x7b\n" ++
  "\t\t\tworkers = [\"$\x7bvar.workercidr\x7d\"]\n" ++
  "\t\t  \x7d\n" ++
  "\t\t"

/-- Template text between the gcp and azure branches. -/
def tmplGap1 : String :=
  "\n" ++
  "\n" ++
  "\t\t"

/-- Body of the action `if eq (index . "target_provider") "azure"`. -/
def azureBlock : String :=
  "\n" ++
  "\t\tazure \x7b  \n" ++
  "          networks \x7b\n" ++
  "\t\t\tvnet    = [\x7bcidr = \"$\x7bvar.vnetcidr\x7d\"\x7d]\n" ++
  "\t\t\tworkers = \"$\x7bvar.workercidr\x7d\"\n" ++
  "\t\t  \x7d\n" ++
  "\t\t"

/-- Template text between the azure and aws branches. -/
def tmplGap2 : String :=
  "\n" ++
  "\n" ++
  "\t\t"

/-- Body of the action `if eq (index . "target_provider") "aws"`. -/
def awsBlock : String :=
  "\n" ++
  "\t\taws \x7b  \n" ++
  "          networks \x7b\n" ++
  "\t\t\tworkers       = [\"$\x7bvar.workercidr\x7d\"]\n" ++
  "\t\t\tpublic\t\t  = [\"$\x7bvar.publicscidr\x7d\"]\n" ++
  "\t\t\tinternal\t  = [\"$\x7bvar.internalscidr\x7d\"]\n" ++
  "\t\t\tvpc\t\t\t  = [\x7bcidr = \"$\x7bvar.vpccidr\x7d\"\x7d]\n" ++
  "\t\t  \x7d\n" ++
  "\t\t"

/-- Template text between the aws branch and the worker loop. -/
def tmplGap3 : String :=
  "\n" ++
  "\n" ++
  "\t\t  "

/-- Loop body up to the sequence number. -/
def workerOpen : String :=
  "\n" ++
  "\t\t  worker \x7b\n" ++
  "\t\t\t  name            = \"cpu-worker-"

/-- Loop body after the sequence number. -/
def workerClose : String :=
  "\"\n" ++
  "\t\t\t  machine_type    = \"$\x7bvar.machine_type\x7d\"\n" ++
  "\t\t\t  auto_scaler_min = \"$\x7bvar.autoscaler_min\x7d\"\n" ++
  "\t\t\t  auto_scaler_max = \"$\x7bvar.autoscaler_max\x7d\"\n" ++
  "\t\t\t  max_surge       = \"$\x7bvar.max_surge\x7d\"\n" ++
  "\t\t\t  max_unavailable = \"$\x7bvar.max_unavailable\x7d\"\n" ++
  "\t\t\t  volume_size     = \"$\x7bvar.disk_size\x7dGi\"\n" ++
  "\t\t\t  volume_type     = \"$\x7bvar.disk_type\x7d\"\n" ++
  "\t\t  \x7d\n" ++
  "\t\t  "

/-- Template text between the worker loop and the zones branch. -/
def tmplGap4 : String :=
  "\n" ++
  "          "

/-- Body of the action `if not (eq (index . "target_provider") "azure")`. -/
def zonesBlock : String :=
  "\n" ++
  "\t\t  zones = [\"$\x7bvar.zone\x7d\"]\n" ++
  "          "

/-- Template text after the last action. -/
def tmplTail : String :=
  "\n" ++
  "\t\t\x7d\n" ++
  "\t  \x7d\n" ++
  "  \n" ++
  "\t  kubernetes \x7b\n" ++
  "\t\tversion = \"$\x7bvar.kubernetes_version\x7d\"\n" ++
  "\t  \x7d\n" ++
  "\t\x7d\n" ++
  "  \x7d\n"

/-- An element of a loop body: literal text or the action printing the loop variable. -/
inductive Item where
  | text (s : String)
  | dot

/-- An element of the template: literal text, a branch on the equality of a
configuration entry with a string literal (or on its negation), or a loop over
`seq` of a configuration entry. -/
inductive Node where
  | text (s : String)
  | ifEq (key lit body : String)
  | ifNotEq (key lit body : String)
  | rangeSeq (key : String) (body : List Item)

/-- The parsed constant `gardenerClusterTemplate`. -/
def gardenerClusterTemplate : List Node :=
  [ .text tmplHead,
    .ifEq "target_provider" "gcp" gcpBlock,
    .text tmplGap1,
    .ifEq "target_provider" "azure" azureBlock,
    .text tmplGap2,
    .ifEq "target_provider" "aws" awsBlock,
    .text tmplGap3,
    .rangeSeq "node_count" [.text workerOpen, .dot, .text workerClose],
    .text tmplGap4,
    .ifNotEq "target_provider" "azure" zonesBlock,
    .text tmplTail ]

/-- The template function `eq` applied to `index . key` and a string literal. The
comparison goes by basic kind: a value of string kind, of type `string` or of a named
string type, is compared by its text; values of different basic kinds do not compare.
For a missing entry (a nil interface) the library either fails or answers false,
depending on its version: `eqNilFails`. -/
def tmplEq (eqNilFails : Bool) (v : Option Value) (lit : String) : Except String Bool :=
  match v with
  | some (.str s) => .ok (s == lit)
  | some (.named s) => .ok (s == lit)
  | some (.int _) => .error "error calling eq: incompatible types for comparison"
  | some (.other _) => .error "error calling eq: incompatible types for comparison"
  | none =>
    if eqNilFails then .error "error calling eq: invalid type for comparison" else .ok false

/-- The bound `maxAlloc` of the Go runtime on a 64-bit platform with 48 address bits:
the largest size in bytes that `make` accepts. -/
def maxAlloc : Nat := 2 ^ 48

/-- The template function `seq` registered by `expandGardenerClusterTemplate`: the
numbers `0, …, n-1`. The call `make([]int, n)` panics with `len out of range` for a
negative length and for a length whose size, at 8 bytes for an `int`, exceeds
`maxAlloc`; the library turns the panic into an execution error. The memory that is
in fact available below that bound is not modelled. -/
def seq (n : Int) : Except String (List Nat) :=
  if n < 0 ∨ (maxAlloc : Int) < 8 * n then
    .error "error calling seq: makeslice: len out of range"
  else .ok (List.range n.toNat)

/-- The call `seq (index . key)`: the argument has to be an `int`. -/
def tmplSeq (v : Option Value) : Except String (List Nat) :=
  match v with
  | some (.int n) => seq n
  | some (.str _) => .error "wrong type for value; expected int; got string"
  | some (.named _) => .error "wrong type for value; expected int"
  | some (.other _) => .error "wrong type for value; expected int"
  | none => .error "invalid value; expected int"

/-- One round of a loop body with the loop variable `i`. -/
def execItems (i : Nat) : List Item → String
  | [] => ""
  | .text s :: rest => s ++ execItems i rest
  | .dot :: rest => toString i ++ execItems i rest

/-- All rounds of a loop body, in the order of the sequence. -/
def execRange (body : List Item) : List Nat → String
  | [] => ""
  | i :: rest => execItems i body ++ execRange body rest

/-- Execution of one element of the template against the configuration map. -/
def execNode (eqNilFails : Bool) (config : Config) : Node → Except String String
  | .text s => .ok s
  | .ifEq key lit body =>
    match tmplEq eqNilFails (config.get? key) lit with
    | .error err => .error err
    | .ok b => .ok (if b then body else "")
  | .ifNotEq key lit body =>
    match tmplEq eqNilFails (config.get? key) lit with
    | .error err => .error err
    | .ok b => .ok (if !b then body else "")
  | .rangeSeq key body =>
    match tmplSeq (config.get? key) with
    | .error err => .error err
    | .ok is => .ok (execRange body is)

/-- Execution of a template: the outputs of its elements in order, or the first error. -/
def execNodes (eqNilFails : Bool) (config : Config) : List Node → Except String String
  | [] => .ok ""
  | node :: rest =>
    match execNode eqNilFails config node with
    | .error err => .error err
    | .ok s =>
      match execNodes eqNilFails config rest with
      | .error err => .error err
      | .ok t => .ok (s ++ t)

/-- The function `expandGardenerClusterTemplate`. -/
def expandGardenerClusterTemplate (eqNilFails : Bool) (config : Config) :
    Except String String :=
  execNodes eqNilFails config gardenerClusterTemplate

/-! ## The shape of the rendered Gardener document -/

/-- Opening of the gcp network block. -/
def gcpMarker : String := "gcp \x7b"

/-- Opening of the azure network block. -/
def azureMarker : String := "azure \x7b"

/-- Opening of the aws network block. -/
def awsMarker : String := "aws \x7b"

/-- The availability-zone declaration. -/
def zonesDecl : String := "zones = [\"$\x7bvar.zone\x7d\"]"

/-- The text of the worker block with sequence number `i`. -/
def workerBlock (i : Nat) : String :=
  workerOpen ++ toString i ++ workerClose

/-- The worker blocks for a list of sequence numbers, in order. -/
def workerBlocks : List Nat → String
  | [] => ""
  | i :: rest => workerBlock i ++ workerBlocks rest

/-- The network block contributed by target `t`: the body of the branch it selects. -/
def cloudBlock (t : String) : String :=
  if t = "gcp" then gcpBlock else if t = "azure" then azureBlock
  else if t = "aws" then awsBlock else ""

/-- The part of the document before the worker blocks, for target `t`. -/
def documentFront (t : String) : String :=
  tmplHead ++ (if t = "gcp" then gcpBlock else "") ++ tmplGap1 ++
    (if t = "azure" then azureBlock else "") ++ tmplGap2 ++
    (if t = "aws" then awsBlock else "") ++ tmplGap3

/-- The part of the document after the worker blocks, for target `t`. -/
def documentBack (t : String) : String :=
  tmplGap4 ++ (if t = "azure" then "" else zonesBlock) ++ tmplTail

/-- The document for target `t` and the worker sequence `is`. -/
def document (t : String) (is : List Nat) : String :=
  documentFront t ++ workerBlocks is ++ documentBack t

/-- Occurrence profile: inside `x` every position is decided for `m`, and `m` occurs
`k` times. -/
def Tame (m x : String) (k : Nat) : Prop :=
  closedFor m.data x.data = true ∧ occ m.data x.data = k

/-- The decimal digits. -/
def digitChars : List Char := ['0', '1', '2', '3', '4', '5', '6', '7', '8', '9']

/-- The text `m` begins with a character that is not a digit. -/
def startsPlain (m : String) : Bool :=
  match m.data with
  | [] => false
  | c :: _ => !digitChars.contains c

/-- Occurrence table of a marker over the literal parts of the template, in template
order: every part is closed for the marker and has the listed number of occurrences. -/
def fragmentTable (m : String) (counts : List Nat) : Bool :=
  ([tmplHead, gcpBlock, tmplGap1, azureBlock, tmplGap2, awsBlock, tmplGap3, workerOpen,
    workerClose, tmplGap4, zonesBlock, tmplTail].zip counts).all
    (fun xc => closedFor m.data xc.1.data && occ m.data xc.1.data == xc.2)

/-! ## Concrete inputs used in the examples -/

/-- Formats with plain literal text. -/
def sampleErrs : Errs :=
  { emptyPre := "", emptyPost := " cannot be empty, "
    lessPre := "", lessMid := " cannot be less than ", lessPost := ", "
    customPre := "", customPost := ", " }

/-- A cluster that satisfies every cluster rule. -/
def sampleCluster : Cluster :=
  { Name := "my-cluster", NodeCount := 3, DiskSizeGB := 30, MachineType := "n1-standard-4"
    KubernetesVersion := "1.15.4", Location := "europe-west3", ClusterInfo := none }

/-- The always mandatory custom keys, bound to sample values. -/
def commonKeys : Config :=
  [ ("target_seed", .str "gcp-eu1"), ("target_secret", .str "my-secret"),
    ("disk_type", .str "pd-standard"), ("autoscaler_min", .int 2),
    ("autoscaler_max", .int 4), ("max_surge", .int 4), ("max_unavailable", .int 1),
    ("workercidr", .str "10.250.0.0/19") ]

/-- A provider whose custom configuration is `custom`. -/
def sampleProvider (custom : Config) : Provider :=
  { Type_ := Gardener, ProjectName := "my-project", CredentialsFilePath := "/path/kubeconfig"
    CustomConfigurations := custom }

/-- A complete custom configuration for the gcp target. -/
def gcpKeys : Config :=
  ("target_provider", .str "gcp") :: ("zone", .str "europe-west3-b") :: commonKeys

/-- A custom configuration for the gcp target without `zone`. -/
def gcpBareKeys : Config :=
  ("target_provider", .str "gcp") :: commonKeys

/-- A cluster name of 21 characters. -/
def longName : String := "aaaaaaaaaaaaaaaaaaaaa"

/-- A cluster that violates the rules of node count, name (by its 21 characters) and
location, and satisfies the other cluster rules. -/
def threeFaultsCluster : Cluster :=
  { Name := longName, NodeCount := 0, DiskSizeGB := 30, MachineType := "n1-standard-4"
    KubernetesVersion := "1.15.4", Location := "", ClusterInfo := none }

/-- The execution context built by `newPlatform`: the document, the name of the
registered provider plugin and the bound variables. -/
structure Platform where
  template : String
  providerName : String
  vars : Config
  deriving DecidableEq, Repr

/-- The collaborators of `Create` that are outside the sources: the fresh state of
`terraformClient.NewState()`, the engine run `platform.Apply`, the decoder
`base64.StdEncoding.DecodeString`, and the version-dependent behaviour of the
template function `eq` on a missing entry. -/
structure Externals where
  newState : Option State
  apply : Platform → Option State → Bool → Option State × Option String
  decodeString : String → Except String (List Nat)
  eqNilFails : Bool

/-- The call `errors.Wrap(err, message)`. -/
def wrap (err : Option String) (message : String) : Option String :=
  err.map (fun cause => message ++ ": " ++ cause)

/-- The rendering `fmt.Sprintf("%v", v)`. -/
def formatV : Value → String
  | .str s => s
  | .int n => toString n
  | .named s => s
  | .other shown => shown

/-- The method `Terraform.newPlatform`. -/
def newPlatform (eqNilFails : Bool) (providerType : ProviderType) (configuration : Config) :
    Except String Platform :=
  if providerType = GCP then
    .ok { template := gcpClusterTemplate, providerName := "google", vars := configuration }
  else if providerType = AWS then
    .error "aws not supported yet"
  else if providerType = Azure then
    .error "azure not supported yet"
  else if providerType = Gardener then
    match expandGardenerClusterTemplate eqNilFails configuration with
    | .error err => .error err
    | .ok expTemplate =>
      .ok { template := expTemplate, providerName := "gardener", vars := configuration }
  else
    .error "unknown provider"

/-- The `ClusterInfo` returned next to an error: state and phase only. -/
def erroredInfo (state : Option State) : ClusterInfo :=
  { Endpoint := ""
    CertificateAuthorityData := []
    InternalState := some { TerraformState := state }
    Status := some { Phase := Phase.Errored } }

/-- The method `Terraform.Create`: the returned pair `(*ClusterInfo, error)`, or a panic
when a successful apply hands back a nil state. -/
def Terraform.Create (x : Externals) (providerType : ProviderType) (configuration : Config) :
    Outcome (Option ClusterInfo × Option String) :=
  match newPlatform x.eqNilFails providerType configuration with
  | .error err => .returned (none, some err)
  | .ok platform =>
    match x.apply platform x.newState false with
    | (state, some err) =>
      .returned (some (erroredInfo state), wrap (some err) "unable to provision cluster")
    | (none, none) => .panicked
    | (some state, none) =>
      match state.Modules with
      | [] =>
        .returned (some { Endpoint := ""
                          CertificateAuthorityData := []
                          InternalState := some { TerraformState := some state }
                          Status := some { Phase := Phase.Provisioned } }, none)
      | root :: _ =>
        let decoded : Except String (List Nat) :=
          match root.Outputs.get? "cluster_ca_certificate" with
          | some val => x.decodeString (formatV val)
          | none => .ok []
        match decoded with
        | .error err =>
          .returned (some (erroredInfo (some state)),
            wrap (some err) "Unable to decode certificate data")
        | .ok certificateData =>
          let endpoint : String :=
            match root.Outputs.get? "endpoint" with
            | some val => formatV val
            | none => ""
          .returned (some { Endpoint := endpoint
                            CertificateAuthorityData := certificateData
                            InternalState := some { TerraformState := some state }
                            Status := some { Phase := Phase.Provisioned } }, none)

/-- Value of a character of the standard base64 alphabet. -/
def base64Value (c : Char) : Option Nat :=
  if 'A'.toNat ≤ c.toNat ∧ c.toNat ≤ 'Z'.toNat then some (c.toNat - 'A'.toNat)
  else if 'a'.toNat ≤ c.toNat ∧ c.toNat ≤ 'z'.toNat then some (c.toNat - 'a'.toNat + 26)
  else if '0'.toNat ≤ c.toNat ∧ c.toNat ≤ '9'.toNat then some (c.toNat - '0'.toNat + 52)
  else if c = '+' then some 62
  else if c = '/' then some 63
  else none

/-- Decoding of padded base64 text, four characters at a time. -/
def decodeQuads : List Char → Option (List Nat)
  | [] => some []
  | [a, b, '=', '='] =>
    match base64Value a, base64Value b with
    | some x, some y => some [(x * 4 + y / 16) % 256]
    | _, _ => none
  | [a, b, c, '='] =>
    match base64Value a, base64Value b, base64Value c with
    | some x, some y, some z => some [(x * 4 + y / 16) % 256, (y * 16 + z / 4) % 256]
    | _, _, _ => none
  | a :: b :: c :: d :: rest =>
    match base64Value a, base64Value b, base64Value c, base64Value d, decodeQuads rest with
    | some x, some y, some z, some w, some more =>
      some ((x * 4 + y / 16) % 256 :: (y * 16 + z / 4) % 256 :: (z * 64 + w) % 256 :: more)
    | _, _, _, _, _ => none
  | _ => none

/-- A decoder for the standard base64 alphabet with padding, used in the examples
only: like the Go decoder it skips line breaks; its error text is a stand-in for the
Go decoder's, which also names the offending input byte. -/
def sampleDecode (s : String) : Except String (List Nat) :=
  match decodeQuads (s.data.filter (fun c => c != '\r' && c != '\n')) with
  | some bytes => .ok bytes
  | none => .error "illegal base64 data"

/-- Collaborators whose engine run fails and hands back the state `state`. -/
def failingExternals (state : Option State) : Externals :=
  { newState := some { Modules := [] }
    apply := fun _ _ _ => (state, some "plan failed")
    decodeString := sampleDecode
    eqNilFails := true }

/-- Collaborators whose engine run succeeds with the root-module outputs `outputs`. -/
def succeedingExternals (outputs : Config) : Externals :=
  { newState := some { Modules := [] }
    apply := fun _ _ _ => (some { Modules := [{ Outputs := outputs }] }, none)
    decodeString := sampleDecode
    eqNilFails := true }

/-! ## `Terraform.Delete` -/

/-- The method `Terraform.Delete`: the returned error, or a panic when `state` is nil
and `state.TerraformState` is read. -/
def Terraform.Delete (x : Externals) (state : Option InternalState)
    (providerType : ProviderType) (configuration : Config) : Outcome (Option String) :=
  match newPlatform x.eqNilFails providerType configuration with
  | .error err => .returned (some err)
  | .ok platform =>
    match state with
    | none => .panicked
    | some internal =>
      .returned (wrap (x.apply platform internal.TerraformState true).2
        "unable to deprovision cluster")

/-! ## The Gardener provisioner (`New`, `Provision`, `Status`, `Credentials`, `Deprovision`) -/

/-- The interface `operator.Operator`: the two methods of an operator. -/
structure Operator where
  Create : ProviderType → Config → Outcome (Option ClusterInfo × Option String)
  Delete : Option InternalState → ProviderType → Config → Outcome (Option String)

/-- The operator `operator.Terraform` over given collaborators. -/
def terraformOperator (x : Externals) : Operator :=
  { Create := Terraform.Create x, Delete := Terraform.Delete x }

/-- Modelled from the spec: the operator tags of package `operator`, whose
declaration is not among the sources: the tag `TerraformOperator` and any other tag. -/
inductive OperatorType where
  | TerraformOperator
  | other (tag : String)
  deriving DecidableEq, Repr

/-- The struct `gardenerProvisioner`. -/
structure gardenerProvisioner where
  operator : Operator

/-- The function `New`. The operator `operator.Unknown`, whose methods are not among
the sources, is the parameter `unknown`. -/
def New (x : Externals) (unknown : Operator) (operatorType : OperatorType) :
    gardenerProvisioner :=
  match operatorType with
  | .TerraformOperator => { operator := terraformOperator x }
  | .other _ => { operator := unknown }

/-- The profile constants. -/
def gcpProfile : String := "gcp"
def awsProfile : String := "aws"
def azureProfile : String := "az"

/-- The loop `for k, v := range src { config[k] = v }`. -/
def copyEntries : Config → Config → Config
  | [], config => config
  | (k, v) :: rest, config => (copyEntries rest config).set k v

/-- The method `loadConfigurations`. -/
def loadConfigurations (cluster : Cluster) (provider : Provider) : Config :=
  let config : Config := []
  let config := config.set "cluster_name" (.str cluster.Name)
  let config := config.set "credentials_file_path" (.str provider.CredentialsFilePath)
  let config := config.set "node_count" (.int cluster.NodeCount)
  let config := config.set "machine_type" (.str cluster.MachineType)
  let config := config.set "disk_size" (.int cluster.DiskSizeGB)
  let config := config.set "kubernetes_version" (.str cluster.KubernetesVersion)
  let config := config.set "location" (.str cluster.Location)
  let config := config.set "namespace" (.str ("garden-" ++ provider.ProjectName))
  let config := copyEntries provider.CustomConfigurations config
  if config.get? "target_provider" = some (.str GCP) then
    config.set "target_profile" (.str gcpProfile)
  else if config.get? "target_provider" = some (.str AWS) then
    config.set "target_profile" (.str awsProfile)
  else if config.get? "target_provider" = some (.str Azure) then
    config.set "target_profile" (.str azureProfile)
  else
    config

/-- The map of `loadConfigurations` after its eight assignments from the typed fields,
before the custom entries are copied in. -/
def typedEntries (cluster : Cluster) (provider : Provider) : Config :=
  [ ("namespace", .str ("garden-" ++ provider.ProjectName)),
    ("location", .str cluster.Location),
    ("kubernetes_version", .str cluster.KubernetesVersion),
    ("disk_size", .int cluster.DiskSizeGB),
    ("machine_type", .str cluster.MachineType),
    ("node_count", .int cluster.NodeCount),
    ("credentials_file_path", .str provider.CredentialsFilePath),
    ("cluster_name", .str cluster.Name) ]

/-- The data of a Kubernetes secret: a `map[string][]byte`. -/
abbrev SecretData := List (String × List Nat)

/-- Map read `s.Data[key]`; a missing entry reads as the nil slice. -/
def SecretData.get (data : SecretData) (key : String) : List Nat :=
  match data with
  | [] => []
  | (k, v) :: rest => if k = key then v else SecretData.get rest key

/-- The Kubernetes and Gardener client calls, which are outside the sources: loading a
client configuration from a kubeconfig path, building the two clients from it, and
reading a shoot or a secret by namespace and name. Each call answers with its value or
with an error message. -/
structure Kube where
  buildConfigFromFlags : String → Except String String
  newGardenerClient : String → Option String
  newKubernetesClient : String → Option String
  getShoot : String → String → Except String ShootStatus
  getSecret : String → String → Except String SecretData

/-- A call made to a collaborator. -/
inductive Call where
  | create (providerType : ProviderType) (configuration : Config)
  | delete (state : Option InternalState) (providerType : ProviderType)
      (configuration : Config)
  | buildConfig (kubeconfigPath : String)
  | newGardenerClient
  | newKubernetesClient
  | getShoot (ns : String) (name : String)
  | getSecret (ns : String) (name : String)
  deriving DecidableEq, Repr

/-- A run of a method: the calls it made to collaborators, in order, and how it ended. -/
structure Run (α : Type) where
  calls : List Call
  result : Outcome α

/-- The method `Provision`: the returned pair `(*types.Cluster, error)`. -/
def Provision (e : Errs) (g : gardenerProvisioner) (cluster : Cluster) (provider : Provider) :
    Run (Option Cluster × Option String) :=
  match validate e cluster provider with
  | some err => { calls := [], result := .returned (none, some err) }
  | none =>
    let config := loadConfigurations cluster provider
    match g.operator.Create provider.Type_ config with
    | .panicked => { calls := [.create provider.Type_ config], result := .panicked }
    | .returned (_, some err) =>
      { calls := [.create provider.Type_ config]
        result := .returned (some cluster,
          wrap (some err) "unable to provision gardener cluster") }
    | .returned (clusterInfo, none) =>
      { calls := [.create provider.Type_ config]
        result := .returned (some { cluster with ClusterInfo := clusterInfo }, none) }

/-- The method `Status`: the returned pair `(*types.ClusterStatus, error)`. -/
def Status (e : Errs) (k : Kube) (cluster : Cluster) (provider : Provider) :
    Run (Option ClusterStatus × Option String) :=
  match validate e cluster provider with
  | some err => { calls := [], result := .returned (none, some err) }
  | none =>
    match k.buildConfigFromFlags provider.CredentialsFilePath with
    | .error err =>
      { calls := [.buildConfig provider.CredentialsFilePath]
        result := .returned (none, some err) }
    | .ok c =>
      match k.newGardenerClient c with
      | some err =>
        { calls := [.buildConfig provider.CredentialsFilePath, .newGardenerClient]
          result := .returned (none, some err) }
      | none =>
        match k.getShoot ("garden-" ++ provider.ProjectName) cluster.Name with
        | .error err =>
          { calls := [.buildConfig provider.CredentialsFilePath, .newGardenerClient,
              .getShoot ("garden-" ++ provider.ProjectName) cluster.Name]
            result := .returned (none, some err) }
        | .ok status =>
          { calls := [.buildConfig provider.CredentialsFilePath, .newGardenerClient,
              .getShoot ("garden-" ++ provider.ProjectName) cluster.Name]
            result :=
              match convertGardenertatus status with
              | .panicked => .panicked
              | .returned phase => .returned (some { Phase := phase }, none) }

/-- The method `Credentials`: the returned pair `([]byte, error)`. -/
def Credentials (e : Errs) (k : Kube) (cluster : Cluster) (provider : Provider) :
    Run (List Nat × Option String) :=
  match validate e cluster provider with
  | some err => { calls := [], result := .returned ([], some err) }
  | none =>
    match k.buildConfigFromFlags provider.CredentialsFilePath with
    | .error err =>
      { calls := [.buildConfig provider.CredentialsFilePath]
        result := .returned ([], some err) }
    | .ok config =>
      match k.newKubernetesClient config with
      | some err =>
        { calls := [.buildConfig provider.CredentialsFilePath, .newKubernetesClient]
          result := .returned ([], some err) }
      | none =>
        match k.getSecret ("garden-" ++ provider.ProjectName)
            (cluster.Name ++ ".kubeconfig") with
        | .error err =>
          { calls := [.buildConfig provider.CredentialsFilePath, .newKubernetesClient,
              .getSecret ("garden-" ++ provider.ProjectName) (cluster.Name ++ ".kubeconfig")]
            result := .returned ([], some err) }
        | .ok data =>
          { calls := [.buildConfig provider.CredentialsFilePath, .newKubernetesClient,
              .getSecret ("garden-" ++ provider.ProjectName) (cluster.Name ++ ".kubeconfig")]
            result := .returned (data.get "kubeconfig", none) }

/-- The method `Deprovision`: the returned error. Reading
`cluster.ClusterInfo.InternalState` through a nil `ClusterInfo` panics before `Delete`
is called. -/
def Deprovision (e : Errs) (g : gardenerProvisioner) (cluster : Cluster)
    (provider : Provider) : Run (Option String) :=
  match validate e cluster provider with
  | some err => { calls := [], result := .returned (some err) }
  | none =>
    let config := loadConfigurations cluster provider
    match cluster.ClusterInfo with
    | none => { calls := [], result := .panicked }
    | some info =>
      match g.operator.Delete info.InternalState provider.Type_ config with
      | .panicked =>
        { calls := [.delete info.InternalState provider.Type_ config], result := .panicked }
      | .returned err =>
        { calls := [.delete info.InternalState provider.Type_ config]
          result := .returned (wrap err "unable to deprovision gardener cluster") }

/-! ## The installation checker (`install/installation/checks.go`) -/

/-- A pod, reduced to `pod.Status.Phase`. -/
structure Pod where
  Phase : String
  deriving DecidableEq, Repr

/-- The constant `corev1.PodRunning`. -/
def PodRunning : String := "Running"

/-- An error of the pod listing: whether `k8serrors.IsNotFound` holds of it, and its
message. -/
structure ListError where
  notFound : Bool
  message : String
  deriving DecidableEq, Repr

/-- The method `listTillerPods`, over the answer of the pod client: the items of the
list, or the error. -/
def listTillerPods (answer : Except ListError (List Pod)) : Except ListError (List Pod) :=
  match answer with
  | .error err => .error err
  | .ok pods => .ok pods

/-- The method `IsTillerDeployed`: the returned pair `(bool, error)`. -/
def IsTillerDeployed (answer : Except ListError (List Pod)) : Bool × Option String :=
  match listTillerPods answer with
  | .error err =>
    if err.notFound then (false, none)
    else (false, some ("error listing tiller pods: " ++ err.message))
  | .ok items => (decide (items.length > 0), none)

/-- The loop of `IsTillerReady` over the pods: false at the first pod that is not
running. -/
def allRunning : List Pod → Bool
  | [] => true
  | pod :: rest => if PodRunning ≠ pod.Phase then false else allRunning rest

/-- The method `IsTillerReady`: the returned pair `(bool, error)`. -/
def IsTillerReady (answer : Except ListError (List Pod)) : Bool × Option String :=
  match listTillerPods answer with
  | .error err =>
    if err.notFound then (false, some "error no tiller pods found")
    else (false, some ("error listing tiller pods: " ++ err.message))
  | .ok items =>
    if items.length = 0 then (false, none)
    else if allRunning items then (true, none)
    else (false, none)

/-! ## Further concrete inputs -/

/-- An operator whose `Create` fails after a partial apply and whose `Delete` succeeds. -/
def failingOperator : Operator :=
  { Create := fun _ _ =>
      .returned (some (erroredInfo none), some "unable to provision cluster: plan failed")
    Delete := fun _ _ _ => .returned none }

/-- A `ClusterInfo` as a successful `Create` returns it. -/
def sampleInfo : ClusterInfo :=
  { Endpoint := "10.0.0.1"
    CertificateAuthorityData := [104, 105]
    InternalState := some { TerraformState := some { Modules := [] } }
    Status := some { Phase := Phase.Provisioned } }

/-- An operator whose `Create` and `Delete` succeed. -/
def succeedingOperator : Operator :=
  { Create := fun _ _ => .returned (some sampleInfo, none)
    Delete := fun _ _ _ => .returned none }

/-- Client calls that all succeed, with one secret entry. -/
def sampleKube : Kube :=
  { buildConfigFromFlags := fun _ => .ok "rest-config"
    newGardenerClient := fun _ => none
    newKubernetesClient := fun _ => none
    getShoot := fun _ _ => .ok { LastOperation := some { State := "Succeeded" } }
    getSecret := fun _ _ => .ok [("kubeconfig", [97, 112, 105])] }

/-- A cluster that fails validation: no nodes. -/
def invalidCluster : Cluster :=
  { sampleCluster with NodeCount := 0 }

/-- A custom configuration that shadows the typed key `cluster_name` and sets its own
`target_profile`. -/
def shadowingKeys : Config :=
  ("cluster_name", .str "shadow") :: ("target_profile", .str "my-profile") :: gcpKeys

/-! ## Lemmas on substring search -/

theorem startsWith_iff (l m : List Char) : startsWith l m = true ↔ ∃ t, l = m ++ t := by
  induction m generalizing l with
  | nil => cases l <;> simp [startsWith]
  | cons d m ih =>
    cases l with
    | nil => simp [startsWith]
    | cons c l =>
      simp only [startsWith, Bool.and_eq_true, beq_iff_eq, ih, List.cons_append, List.cons.injEq]
      constructor
      · rintro ⟨rfl, t, rfl⟩
        exact ⟨t, rfl, rfl⟩
      · rintro ⟨t, rfl, rfl⟩
        exact ⟨rfl, t, rfl⟩

theorem startsWith_append_left {t m : List Char} (r : List Char)
    (h : startsWith t m = true) : startsWith (t ++ r) m = true := by
  obtain ⟨u, rfl⟩ := (startsWith_iff t m).1 h
  exact (startsWith_iff _ _).2 ⟨u ++ r, by simp⟩

theorem startsWith_append_elim {t m : List Char} (r : List Char)
    (h : startsWith (t ++ r) m = true) : startsWith t m = true ∨ startsWith m t = true := by
  induction m generalizing t with
  | nil => left; cases t <;> rfl
  | cons d m ih =>
    cases t with
    | nil => right; rfl
    | cons c t =>
      simp only [List.cons_append, startsWith, Bool.and_eq_true, beq_iff_eq] at h ⊢
      obtain ⟨rfl, h⟩ := h
      rcases ih h with h1 | h1
      · exact Or.inl ⟨rfl, h1⟩
      · exact Or.inr ⟨rfl, h1⟩

theorem startsWith_append_of_closed {t m : List Char} (r : List Char)
    (h : (startsWith t m || !(startsWith m t)) = true) :
    startsWith (t ++ r) m = startsWith t m := by
  cases h1 : startsWith t m with
  | true => exact startsWith_append_left r h1
  | false =>
    cases h2 : startsWith (t ++ r) m with
    | false => rfl
    | true =>
      rcases startsWith_append_elim r h2 with h3 | h3
      · rw [h1] at h3; cases h3
      · rw [h1, h3] at h; cases h

theorem occ_append_of_closed {m a : List Char} (b : List Char) (h : closedFor m a = true) :
    occ m (a ++ b) = occ m a + occ m b := by
  induction a with
  | nil => simp [occ]
  | cons c a ih =>
    simp only [closedFor, Bool.and_eq_true] at h
    have h1 := startsWith_append_of_closed b h.1
    simp only [List.cons_append] at h1 ⊢
    simp only [occ, h1, ih h.2]
    omega

theorem closedFor_append {m a b : List Char} (ha : closedFor m a = true)
    (hb : closedFor m b = true) : closedFor m (a ++ b) = true := by
  induction a with
  | nil => simpa using hb
  | cons c a ih =>
    simp only [closedFor, Bool.and_eq_true] at ha
    have h1 := startsWith_append_of_closed b ha.1
    simp only [List.cons_append] at h1 ⊢
    simp only [closedFor, Bool.and_eq_true, h1, ih ha.2, and_true]
    cases h2 : startsWith (c :: a) m with
    | true => simp
    | false =>
      simp only [Bool.false_or, Bool.not_eq_true', Bool.not_eq_eq_eq_not, Bool.not_true]
      cases h3 : startsWith m (c :: (a ++ b)) with
      | false => rfl
      | true =>
        exfalso
        obtain ⟨u, hu⟩ := (startsWith_iff _ _).1 h3
        have h4 : startsWith m (c :: a) = true :=
          (startsWith_iff _ _).2 ⟨b ++ u, by simp [hu]⟩
        rw [h2, h4] at ha
        simp at ha

theorem closedFor_of_freeOf {m a : List Char} (h : freeOf m a = true) :
    closedFor m a = true := by
  induction a with
  | nil => rfl
  | cons c a ih =>
    simp only [freeOf, Bool.and_eq_true, Bool.not_eq_true'] at h
    simp [closedFor, h.1.2, ih h.2]

theorem occ_of_freeOf {m a : List Char} (h : freeOf m a = true) : occ m a = 0 := by
  induction a with
  | nil => rfl
  | cons c a ih =>
    simp only [freeOf, Bool.and_eq_true, Bool.not_eq_true'] at h
    simp [occ, h.1.1, ih h.2]

theorem freeOf_of_forall_ne (c0 : Char) (m a : List Char) (h : ∀ c ∈ a, c ≠ c0) :
    freeOf (c0 :: m) a = true := by
  induction a with
  | nil => rfl
  | cons c a ih =>
    have hc : c ≠ c0 := h c (List.mem_cons_self _ _)
    have hc' : ¬ c0 = c := fun h => hc h.symm
    simp [freeOf, startsWith, hc, hc']
    exact ih (fun d hd => h d (List.mem_cons_of_mem _ hd))

theorem occurs_of_occ_pos {m l : List Char} (h : 0 < occ m l) : Occurs m l := by
  induction l with
  | nil => simp [occ] at h
  | cons c l ih =>
    by_cases hs : startsWith (c :: l) m = true
    · obtain ⟨t, ht⟩ := (startsWith_iff _ _).1 hs
      exact ⟨[], t, by simpa using ht⟩
    · simp only [occ, hs] at h
      obtain ⟨s, t, hst⟩ := ih (by simpa using h)
      exact ⟨c :: s, t, by simp [hst]⟩

theorem occ_pos_of_occurs {m l : List Char} (hm : m ≠ []) (h : Occurs m l) : 0 < occ m l := by
  obtain ⟨s, t, rfl⟩ := h
  induction s with
  | nil =>
    cases m with
    | nil => exact absurd rfl hm
    | cons d m =>
      have : startsWith (d :: m ++ t) (d :: m) = true := (startsWith_iff _ _).2 ⟨t, rfl⟩
      simp only [List.nil_append, List.cons_append] at this ⊢
      simp [occ, this]
  | cons c s ih =>
    have h1 : occ m (c :: (s ++ (m ++ t))) =
        (if startsWith (c :: (s ++ (m ++ t))) m then 1 else 0) + occ m (s ++ (m ++ t)) := rfl
    rw [List.cons_append, h1]
    omega

theorem occurs_iff_occ_pos {m l : List Char} (hm : m ≠ []) : Occurs m l ↔ 0 < occ m l :=
  ⟨occ_pos_of_occurs hm, occurs_of_occ_pos⟩

theorem not_occurs_iff_occ_zero {m l : List Char} (hm : m ≠ []) : ¬ Occurs m l ↔ occ m l = 0 := by
  rw [occurs_iff_occ_pos hm]; omega

theorem occurs_trans {a b c : List Char} (h1 : Occurs a b) (h2 : Occurs b c) : Occurs a c := by
  obtain ⟨s, t, rfl⟩ := h1
  obtain ⟨s', t', rfl⟩ := h2
  exact ⟨s' ++ s, t ++ t', by simp⟩

/-! ## The language of the cluster-name pattern -/

theorem run_cls_end (R : List (Char × Char)) (r : List Char) :
    (Re.cls R).run r (fun rest => rest.isEmpty) = true ↔ ∃ d, r = [d] ∧ inClass R d = true := by
  cases r with
  | nil => simp [Re.run]
  | cons d r =>
    cases r with
    | nil => simp [Re.run]
    | cons d' r => simp [Re.run]

theorem repeatUpTo_cls (R : List (Char × Char)) (n : Nat) (s : List Char)
    (k : List Char → Bool) :
    repeatUpTo (Re.cls R).run n s k = true ↔
      ∃ u v, s = u ++ v ∧ u.length ≤ n ∧ (∀ d ∈ u, inClass R d = true) ∧ k v = true := by
  induction n generalizing s with
  | zero =>
    simp only [repeatUpTo, Nat.le_zero_eq, List.length_eq_zero]
    constructor
    · intro h; exact ⟨[], s, rfl, rfl, by simp, h⟩
    · rintro ⟨u, v, rfl, rfl, _, h⟩; simpa using h
  | succ n ih =>
    simp only [repeatUpTo, Bool.or_eq_true]
    constructor
    · rintro (h | h)
      · cases s with
        | nil => simp [Re.run] at h
        | cons c s =>
          simp only [Re.run, Bool.and_eq_true] at h
          obtain ⟨u, v, rfl, hu, hall, hk⟩ := (ih s).1 h.2
          refine ⟨c :: u, v, rfl, by simpa using hu, ?_, hk⟩
          intro d hd
          rcases List.mem_cons.1 hd with rfl | hd
          · exact h.1
          · exact hall d hd
      · exact ⟨[], s, rfl, by simp, by simp, h⟩
    · rintro ⟨u, v, rfl, hu, hall, hk⟩
      cases u with
      | nil => right; simpa using hk
      | cons c u =>
        left
        simp only [List.cons_append, Re.run, Bool.and_eq_true]
        refine ⟨hall c (List.mem_cons_self _ _), (ih (u ++ v)).2 ⟨u, v, rfl, ?_, ?_, hk⟩⟩
        · simpa using hu
        · intro d hd; exact hall d (List.mem_cons_of_mem _ hd)

theorem alnum_iff (d : Char) :
    inClass [('a', 'z'), ('0', '9')] d = true ↔
      inClass [('-', '-'), ('a', 'z'), ('0', '9')] d = true ∧ d ≠ '-' := by
  have h45 : ('-' : Char).toNat = 45 := by decide
  have h97 : ('a' : Char).toNat = 97 := by decide
  have h122 : ('z' : Char).toNat = 122 := by decide
  have h48 : ('0' : Char).toNat = 48 := by decide
  have h57 : ('9' : Char).toNat = 57 := by decide
  simp only [inClass, List.any_cons, List.any_nil, Bool.or_false, Bool.or_eq_true,
    Bool.and_eq_true, decide_eq_true_eq, h45, h97, h122, h48, h57]
  constructor
  · intro h
    refine ⟨Or.inr h, ?_⟩
    rintro rfl
    rw [h45] at h
    omega
  · rintro ⟨h | h, hne⟩
    · exfalso
      apply hne
      have : d.toNat = ('-' : Char).toNat := by rw [h45]; omega
      exact Char.ext (by
        have h2 : d.val.toNat = ('-' : Char).val.toNat := this
        exact UInt32.ext (by simpa [UInt32.toNat] using h2))
    · exact h

/-- The names accepted by the pattern of `validate`: a lowercase letter followed by at
most 20 lowercase letters, digits or hyphens, the last character not a hyphen. -/
theorem clusterNamePattern_accepts_iff (s : String) :
    clusterNamePattern.matchString s = true ↔
      ∃ c rest, s.data = c :: rest ∧ inClass [('a', 'z')] c = true ∧
        (∀ d ∈ rest, inClass [('-', '-'), ('a', 'z'), ('0', '9')] d = true) ∧
        rest.length ≤ 20 ∧ (c :: rest).getLast? ≠ some '-' := by
  have hlow : ∀ c, inClass [('a', 'z')] c = true → c ≠ '-' := by
    intro c hc
    have : inClass [('a', 'z'), ('0', '9')] c = true := by
      simp only [inClass, List.any_cons, List.any_nil, Bool.or_false, Bool.or_eq_true] at hc ⊢
      exact Or.inl hc
    exact ((alnum_iff c).1 this).2
  unfold Re.matchString
  cases hs : s.data with
  | nil => simp [clusterNamePattern, Re.run]
  | cons c rest =>
    have hL : clusterNamePattern.run (c :: rest) (fun rest => rest.isEmpty) =
        (inClass [('a', 'z')] c &&
          (repeatUpTo (Re.cls [('-', '-'), ('a', 'z'), ('0', '9')]).run 19 rest
              (fun r => (Re.cls [('a', 'z'), ('0', '9')]).run r (fun rest => rest.isEmpty)) ||
            rest.isEmpty)) := rfl
    rw [hL]
    simp only [Bool.and_eq_true, Bool.or_eq_true]
    rw [repeatUpTo_cls]
    constructor
    · rintro ⟨hc, h | h⟩
      · obtain ⟨u, v, rfl, hu, hall, hk⟩ := h
        obtain ⟨d, rfl, hd⟩ := (run_cls_end _ v).1 hk
        refine ⟨c, u ++ [d], rfl, hc, ?_, ?_, ?_⟩
        · intro x hx
          rcases List.mem_append.1 hx with hx | hx
          · exact hall x hx
          · rw [List.mem_singleton.1 hx]; exact ((alnum_iff d).1 hd).1
        · simp only [List.length_append, List.length_singleton]; omega
        · have e : c :: (u ++ [d]) = (c :: u) ++ [d] := rfl
          rw [e, List.getLast?_append]
          simp only [List.getLast?_singleton, Option.or, ne_eq, Option.some.injEq]
          exact ((alnum_iff d).1 hd).2
      · have hr : rest = [] := by simpa using h
        subst hr
        refine ⟨c, [], rfl, hc, by simp, by simp, ?_⟩
        simp only [List.getLast?_singleton, ne_eq, Option.some.injEq]
        exact hlow c hc
    · rintro ⟨c', rest', heq, hc, hall, hlen, hlast⟩
      injection heq with h1 h2
      subst h1; subst h2
      refine ⟨hc, ?_⟩
      rcases List.eq_nil_or_concat rest with hr | ⟨u, d, hr⟩
      · right; rw [hr]; rfl
      · left
        rw [List.concat_eq_append] at hr
        subst hr
        refine ⟨u, [d], rfl, ?_, ?_, ?_⟩
        · simp only [List.length_append, List.length_singleton] at hlen; omega
        · intro x hx; exact hall x (List.mem_append_left _ hx)
        · refine (run_cls_end _ [d]).2 ⟨d, rfl, (alnum_iff d).2
            ⟨hall d (List.mem_append_right _ (List.mem_singleton_self d)), ?_⟩⟩
          intro hd
          apply hlast
          have e : c :: (u ++ [d]) = (c :: u) ++ [d] := rfl
          rw [e, List.getLast?_append]
          simp [hd]

theorem lower_is_allowed (c : Char) (h : inClass [('a', 'z')] c = true) :
    inClass [('-', '-'), ('a', 'z'), ('0', '9')] c = true := by
  simp only [inClass, List.any_cons, List.any_nil, Bool.or_false, Bool.or_eq_true] at h ⊢
  exact Or.inr (Or.inl h)

theorem specNameRule_iff (s : String) :
    specNameRule s = true ↔
      ∃ c rest, s.data = c :: rest ∧ inClass [('a', 'z')] c = true ∧
        (∀ d ∈ rest, inClass [('-', '-'), ('a', 'z'), ('0', '9')] d = true) ∧
        rest.length ≤ 19 ∧ (c :: rest).getLast? ≠ some '-' := by
  unfold specNameRule
  cases hs : s.data with
  | nil => simp
  | cons c rest =>
    simp only [Bool.and_eq_true, List.all_eq_true, List.mem_cons, forall_eq_or_imp,
      decide_eq_true_eq, List.length_cons, bne_iff_ne, ne_eq, List.cons.injEq]
    constructor
    · rintro ⟨⟨⟨hc, _, hall⟩, hlen⟩, hlast⟩
      exact ⟨c, rest, ⟨rfl, rfl⟩, hc, hall, by omega, hlast⟩
    · rintro ⟨c', rest', ⟨rfl, rfl⟩, hc, hall, hlen, hlast⟩
      exact ⟨⟨⟨hc, lower_is_allowed c hc, hall⟩, by omega⟩, hlast⟩

/-- The pattern of `validate` accepts the names of the specification's rule and, beyond
them, names of 21 characters. -/
theorem clusterNamePattern_vs_spec (s : String) :
    clusterNamePattern.matchString s = true ↔
      specNameRule s = true ∨ (s.length = 21 ∧ clusterNamePattern.matchString s = true) := by
  constructor
  · intro h
    obtain ⟨c, rest, hs, hc, hall, hlen, hlast⟩ := (clusterNamePattern_accepts_iff s).1 h
    by_cases h19 : rest.length ≤ 19
    · exact Or.inl ((specNameRule_iff s).2 ⟨c, rest, hs, hc, hall, h19, hlast⟩)
    · refine Or.inr ⟨?_, h⟩
      have : s.length = s.data.length := rfl
      rw [this, hs, List.length_cons]
      omega
  · rintro (h | ⟨_, h⟩)
    · obtain ⟨c, rest, hs, hc, hall, hlen, hlast⟩ := (specNameRule_iff s).1 h
      exact (clusterNamePattern_accepts_iff s).2 ⟨c, rest, hs, hc, hall, by omega, hlast⟩
    · exact h

theorem specNameRule_length (s : String) (h : specNameRule s = true) : s.length ≤ 20 := by
  obtain ⟨c, rest, hs, _, _, hlen, _⟩ := (specNameRule_iff s).1 h
  have : s.length = s.data.length := rfl
  rw [this, hs, List.length_cons]
  omega

/-! ## Lemmas on `validate` -/

theorem appendIf_eq (cond : Bool) (acc piece : String) :
    appendIf cond acc piece = acc ++ (if cond then piece else "") := by
  cases cond <;> simp [appendIf]

theorem renderAll_raise (e : Errs) (g : Bool) (r : Field × Report) (grs : List (Bool × Field × Report)) :
    renderAll e (((g, r) :: grs).filterMap (fun gr => if gr.1 then some gr.2 else none)) =
      (if g then e.render r.2 else "") ++
        renderAll e (grs.filterMap (fun gr => if gr.1 then some gr.2 else none)) := by
  cases g <;> simp [renderAll, List.filterMap_cons]

theorem validateMessage_eq (e : Errs) (c : Cluster) (p : Provider) :
    validateMessage e c p = renderAll e (raised c p) := by
  simp only [validateMessage, raised, guards, reports, List.zip_cons_cons, renderAll_raise,
    List.zip_nil_right, List.filterMap_nil, renderAll, Errs.render]
  cases h : p.CustomConfigurations.get? "target_provider" <;>
    simp [appendIf_eq, String.append_assoc]

theorem mem_raise (g : Bool) (r r0 : Field × Report) (grs : List (Bool × Field × Report)) :
    r ∈ ((g, r0) :: grs).filterMap (fun gr => if gr.1 then some gr.2 else none) ↔
      (g = true ∧ r = r0) ∨ r ∈ grs.filterMap (fun gr => if gr.1 then some gr.2 else none) := by
  cases g <;> simp [List.filterMap_cons]

theorem mem_raised (c : Cluster) (p : Provider) (r : Field × Report) :
    r ∈ raised c p ↔ (true, r) ∈ (guards c p).zip reports := by
  simp [raised, List.mem_filterMap]

theorem has_eq_false_iff (p : Provider) (k : String) :
    (p.CustomConfigurations.has k = false) ↔ ¬ present p k := by
  simp [Config.has, present]

theorem isTarget_iff (p : Provider) (t : ProviderType) :
    isTarget (p.CustomConfigurations.get? "target_provider") t = true ↔ targetIs p t := by
  simp [isTarget, targetIs]

theorem isTarget_false_iff (p : Provider) (t : ProviderType) :
    isTarget (p.CustomConfigurations.get? "target_provider") t = false ↔ ¬ targetIs p t := by
  simp [isTarget, targetIs]

theorem raised_sound (c : Cluster) (p : Provider) :
    ∀ r ∈ raised c p, ¬ r.1.satisfied c p := by
  intro r hr
  simp only [raised, guards, reports, List.zip_cons_cons, mem_raise, List.zip_nil_right,
    List.filterMap_nil, List.not_mem_nil, or_false] at hr
  simp only [Bool.and_eq_true, Bool.or_eq_true, Bool.not_eq_true', decide_eq_true_eq,
    beq_iff_eq, has_eq_false_iff, isTarget_iff, isTarget_false_iff, Option.isSome_iff_exists,
    Option.isNone_iff_eq_none] at hr
  rcases hr with ⟨hg, rfl⟩ | ⟨hg, rfl⟩ | ⟨hg, rfl⟩ | ⟨hg, rfl⟩ | ⟨hg, rfl⟩ | ⟨hg, rfl⟩ |
    ⟨hg, rfl⟩ | ⟨hg, rfl⟩ | ⟨hg, rfl⟩ | ⟨hg, rfl⟩ | ⟨hg, rfl⟩ | ⟨hg, rfl⟩ | ⟨hg, rfl⟩ |
    ⟨hg, rfl⟩ | ⟨hg, rfl⟩ | ⟨hg, rfl⟩ | ⟨hg, rfl⟩ | ⟨hg, rfl⟩ | ⟨hg, rfl⟩ | ⟨hg, rfl⟩ |
    ⟨hg, rfl⟩ | ⟨hg, rfl⟩ | ⟨hg, rfl⟩ <;>
  simp only [Field.satisfied]
  all_goals first
    | omega
    | (simp only [ne_eq, not_not]; exact hg)
    | (intro h; exact hg h)
    | (simp only [targetIs, hg]; simp; done)
    | tauto

theorem raised_complete (c : Cluster) (p : Provider) (f : Field) (h : ¬ f.satisfied c p) :
    ∃ rep, (f, rep) ∈ raised c p := by
  simp only [raised, guards, reports, List.zip_cons_cons, mem_raise, List.zip_nil_right,
    List.filterMap_nil, List.not_mem_nil, or_false]
  simp only [Bool.and_eq_true, Bool.or_eq_true, Bool.not_eq_true', decide_eq_true_eq,
    beq_iff_eq, has_eq_false_iff, isTarget_iff, isTarget_false_iff, Option.isSome_iff_exists,
    Option.isNone_iff_eq_none]
  by_cases hf : f = Field.targetProvider
  · subst hf
    simp only [Field.satisfied] at h
    cases hget : p.CustomConfigurations.get? "target_provider" with
    | none => exact ⟨_, Or.inr (Or.inr (Or.inr (Or.inr (Or.inr (Or.inr (Or.inr (Or.inr (Or.inr
        (Or.inl ⟨rfl, rfl⟩)))))))))⟩
    | some a => exact ⟨_, Or.inr (Or.inr (Or.inr (Or.inr (Or.inr (Or.inr (Or.inr (Or.inr
        (Or.inl ⟨⟨⟨a, rfl⟩, by tauto⟩, rfl⟩))))))))⟩
  · cases f <;> simp only [Field.satisfied] at h <;> simp
    all_goals first
      | omega
      | (simpa using h)
      | tauto


theorem freeOf_append {m a b : List Char} (ha : freeOf m a = true) (hb : freeOf m b = true) :
    freeOf m (a ++ b) = true := by
  induction a with
  | nil => simpa using hb
  | cons c a ih =>
    simp only [freeOf, Bool.and_eq_true, Bool.not_eq_true'] at ha
    obtain ⟨⟨h1, h2⟩, h3⟩ := ha
    have k1 : startsWith (c :: (a ++ b)) m = false := by
      cases h4 : startsWith (c :: (a ++ b)) m with
      | false => rfl
      | true =>
        rcases startsWith_append_elim (t := c :: a) b h4 with h5 | h5
        · rw [h1] at h5; cases h5
        · rw [h2] at h5; cases h5
    have k2 : startsWith m (c :: (a ++ b)) = false := by
      cases h4 : startsWith m (c :: (a ++ b)) with
      | false => rfl
      | true =>
        obtain ⟨u, hu⟩ := (startsWith_iff _ _).1 h4
        have h5 : startsWith m (c :: a) = true := (startsWith_iff _ _).2 ⟨b ++ u, by simp [hu]⟩
        rw [h2] at h5; cases h5
    have k3 := ih h3
    rw [List.cons_append]
    simp only [freeOf, k1, k2, k3, Bool.not_false, Bool.and_self]

theorem freeOf_plain (f : Field) (hf : labelCheck f = true) (s : String) (hs : plainText s = true) :
    freeOf f.label.data s.data = true := by
  simp only [labelCheck, Bool.and_eq_true, Bool.or_eq_true, beq_iff_eq] at hf
  simp only [plainText, List.all_eq_true, Bool.and_eq_true, bne_iff_ne, ne_eq] at hs
  cases hd : f.label.data with
  | nil => rw [hd] at hf; simp at hf
  | cons c0 m =>
    rw [hd] at hf
    simp only [List.head?_cons, Option.some.injEq] at hf
    apply freeOf_of_forall_ne
    intro c hc
    rcases hf.1 with rfl | rfl
    · exact (hs c hc).1
    · exact (hs c hc).2

theorem labelCheck_all : ∀ f ∈ Field.all, labelCheck f = true := by decide!

theorem ownerCheck_true : ownerCheck = true := by decide!

theorem mem_fieldAll (f : Field) : f ∈ Field.all := by cases f <;> decide

theorem labelCheck_true (f : Field) : labelCheck f = true := labelCheck_all f (mem_fieldAll f)

theorem raised_subset (c : Cluster) (p : Provider) (r : Field × Report) (h : r ∈ raised c p) :
    r ∈ reports :=
  (List.of_mem_zip ((mem_raised c p r).1 h)).2

theorem render_free (e : Errs) (he : e.plain = true) (f g : Field) (rep : Report)
    (hmem : (g, rep) ∈ reports) (hne : g ≠ f) :
    freeOf f.label.data (e.render rep).data = true := by
  have hl := labelCheck_true f
  have hv : ∀ v ∈ rep.values, freeOf f.label.data v.data = true := by
    have h1 := hl
    simp only [labelCheck, Bool.and_eq_true, List.all_eq_true, Bool.or_eq_true, beq_iff_eq] at h1
    intro v hv
    rcases h1.2 (g, rep) hmem with h2 | h2
    · exact absurd h2 hne
    · exact h2 v hv
  simp only [Errs.plain, Bool.and_eq_true] at he
  obtain ⟨⟨⟨⟨⟨⟨p1, p2⟩, p3⟩, p4⟩, p5⟩, p6⟩, p7⟩ := he
  cases rep with
  | cannotBeEmpty field =>
    simp only [Errs.render, Errs.CannotBeEmpty, String.data_append]
    exact freeOf_append (freeOf_append (freeOf_plain f hl _ p1) (hv field (by simp [Report.values])))
      (freeOf_plain f hl _ p2)
  | cannotBeLess field bound =>
    simp only [Errs.render, Errs.CannotBeLess, String.data_append]
    exact freeOf_append (freeOf_append (freeOf_append (freeOf_append (freeOf_plain f hl _ p3)
      (hv field (by simp [Report.values]))) (freeOf_plain f hl _ p4))
      (hv (toString bound) (by simp [Report.values]))) (freeOf_plain f hl _ p5)
  | custom text =>
    simp only [Errs.render, Errs.Custom, String.data_append]
    exact freeOf_append (freeOf_append (freeOf_plain f hl _ p6) (hv text (by simp [Report.values])))
      (freeOf_plain f hl _ p7)

theorem renderAll_free (e : Errs) (m : List Char) (l : List (Field × Report))
    (h : ∀ r ∈ l, freeOf m (e.render r.2).data = true) :
    freeOf m (renderAll e l).data = true := by
  induction l with
  | nil => rfl
  | cons r l ih =>
    simp only [renderAll, String.data_append]
    exact freeOf_append (h r (List.mem_cons_self _ _))
      (ih (fun r' hr' => h r' (List.mem_cons_of_mem _ hr')))

theorem renderAll_occurs (e : Errs) (l : List (Field × Report)) (r : Field × Report)
    (h : r ∈ l) : Occurs (e.render r.2).data (renderAll e l).data := by
  induction l with
  | nil => cases h
  | cons r' l ih =>
    simp only [renderAll, String.data_append]
    rcases List.mem_cons.1 h with rfl | h'
    · exact ⟨[], (renderAll e l).data, rfl⟩
    · obtain ⟨s, t, hst⟩ := ih h'
      exact ⟨(e.render r'.2).data ++ s, t, by rw [hst]; simp⟩

theorem render_occurs_label (e : Errs) (g : Field) (rep : Report) (hmem : (g, rep) ∈ reports) :
    Occurs g.label.data (e.render rep).data := by
  have h1 := ownerCheck_true
  simp only [ownerCheck, List.all_eq_true] at h1
  have h2 := h1 (g, rep) hmem
  cases rep with
  | cannotBeEmpty field =>
    simp only [Report.values] at h2
    obtain ⟨t, ht⟩ := (startsWith_iff _ _).1 h2
    exact ⟨e.emptyPre.data, t ++ e.emptyPost.data, by
      simp [Errs.render, Errs.CannotBeEmpty, String.data_append, ht]⟩
  | cannotBeLess field bound =>
    simp only [Report.values] at h2
    obtain ⟨t, ht⟩ := (startsWith_iff _ _).1 h2
    exact ⟨e.lessPre.data, t ++ e.lessMid.data ++ (toString bound).data ++ e.lessPost.data, by
      simp [Errs.render, Errs.CannotBeLess, String.data_append, ht]⟩
  | custom text =>
    simp only [Report.values] at h2
    obtain ⟨t, ht⟩ := (startsWith_iff _ _).1 h2
    exact ⟨e.customPre.data, t ++ e.customPost.data, by
      simp [Errs.render, Errs.Custom, String.data_append, ht]⟩

theorem label_ne_nil (f : Field) : f.label.data ≠ [] := by
  have hl := labelCheck_true f
  simp only [labelCheck, Bool.and_eq_true, Bool.or_eq_true, beq_iff_eq] at hl
  intro h
  rw [h] at hl
  simp at hl

theorem occurs_append_left {m l : List Char} (s : List Char) (h : Occurs m l) :
    Occurs m (s ++ l) := by
  obtain ⟨a, b, rfl⟩ := h
  exact ⟨s ++ a, b, by simp⟩

/-- A violated rule is named in the text `validate` builds. -/
theorem mentions_of_violated (e : Errs) (c : Cluster) (p : Provider) (f : Field)
    (h : ¬ f.satisfied c p) :
    Mentions (validatePrefix ++ validateMessage e c p) f.label := by
  obtain ⟨rep, hrep⟩ := raised_complete c p f h
  have h1 := renderAll_occurs e _ _ hrep
  have h2 := render_occurs_label e f rep (raised_subset c p _ hrep)
  have h3 := occurs_trans h2 h1
  simp only [Mentions, String.data_append, validateMessage_eq]
  exact occurs_append_left _ h3

/-- A satisfied rule is not named in the text `validate` builds, when the literal text
of the formats is plain. -/
theorem not_mentions_of_satisfied (e : Errs) (he : e.plain = true) (c : Cluster)
    (p : Provider) (f : Field) (h : f.satisfied c p) :
    ¬ Mentions (validatePrefix ++ validateMessage e c p) f.label := by
  have h1 : freeOf f.label.data (renderAll e (raised c p)).data = true := by
    apply renderAll_free
    intro r hr
    have hne : r.1 ≠ f := by
      intro heq
      exact raised_sound c p r hr (heq ▸ h)
    exact render_free e he f r.1 r.2 (raised_subset c p r hr) hne
  have h2 : freeOf f.label.data validatePrefix.data = true :=
    freeOf_plain f (labelCheck_true f) _ (by decide)
  have h3 := occ_of_freeOf (freeOf_append h2 h1)
  simp only [Mentions, String.data_append, validateMessage_eq]
  exact (not_occurs_iff_occ_zero (label_ne_nil f)).2 h3

theorem validate_eq (e : Errs) (c : Cluster) (p : Provider) :
    validate e c p =
      if validateMessage e c p ≠ "" then some (validatePrefix ++ validateMessage e c p)
      else none := rfl

theorem renderAll_eq_empty (e : Errs) (l : List (Field × Report)) (hl : ∀ r ∈ l, r ∈ reports) :
    renderAll e l = "" ↔ l = [] := by
  constructor
  · intro h
    cases l with
    | nil => rfl
    | cons r l =>
      exfalso
      have h1 := render_occurs_label e r.1 r.2 (hl r (List.mem_cons_self _ _))
      have h2 := renderAll_occurs e (r :: l) r (List.mem_cons_self _ _)
      obtain ⟨s, t, hst⟩ := occurs_trans h1 h2
      rw [h] at hst
      have h3 := label_ne_nil r.1
      cases hd : r.1.label.data with
      | nil => exact h3 hd
      | cons x xs => rw [hd] at hst; simp at hst
  · rintro rfl; rfl

theorem validate_none_iff (e : Errs) (c : Cluster) (p : Provider) :
    validate e c p = none ↔ ∀ f : Field, f.satisfied c p := by
  rw [validate_eq]
  have h1 := renderAll_eq_empty e (raised c p) (raised_subset c p)
  rw [← validateMessage_eq] at h1
  constructor
  · intro h f
    by_contra hf
    obtain ⟨rep, hrep⟩ := raised_complete c p f hf
    have h2 : validateMessage e c p = "" := by
      by_contra h3
      simp [h3] at h
    rw [h1.1 h2] at hrep
    cases hrep
  · intro h
    have h2 : raised c p = [] := by
      cases hr : raised c p with
      | nil => rfl
      | cons r l =>
        exfalso
        exact raised_sound c p r (by rw [hr]; exact List.mem_cons_self _ _) (h r.1)
    simp [h1.2 h2]

/-! ## Lemmas on the rendered document -/

theorem gcpTable : fragmentTable gcpMarker [0, 1, 0, 0, 0, 0, 0, 0, 0, 0, 0, 0] = true := by
  decide!
theorem azureTable : fragmentTable azureMarker [0, 0, 0, 1, 0, 0, 0, 0, 0, 0, 0, 0] = true := by
  decide!
theorem awsTable : fragmentTable awsMarker [0, 0, 0, 0, 0, 1, 0, 0, 0, 0, 0, 0] = true := by
  decide!
theorem zonesTable : fragmentTable zonesDecl [0, 0, 0, 0, 0, 0, 0, 0, 0, 0, 1, 0] = true := by
  decide!

theorem tame_empty (m : String) : Tame m "" 0 := ⟨rfl, rfl⟩

theorem tame_append {m x y : String} {k j : Nat} (hx : Tame m x k) (hy : Tame m y j) :
    Tame m (x ++ y) (k + j) := by
  refine ⟨?_, ?_⟩
  · rw [String.data_append]; exact closedFor_append hx.1 hy.1
  · rw [String.data_append, occ_append_of_closed _ hx.1, hx.2, hy.2]

theorem tame_ite {m x y : String} {k j : Nat} (c : Prop) [Decidable c] (hx : Tame m x k)
    (hy : Tame m y j) : Tame m (if c then x else y) (if c then k else j) := by
  by_cases h : c <;> simp [h, hx, hy]

theorem digitChar_mem (n : Nat) : Nat.digitChar (n % 10) ∈ digitChars := by
  have h : n % 10 < 10 := Nat.mod_lt _ (by decide)
  generalize n % 10 = d at h
  interval_cases d <;> decide

theorem toDigitsCore_mem (fuel n : Nat) (ds : List Char) :
    ∀ c ∈ Nat.toDigitsCore 10 fuel n ds, c ∈ digitChars ∨ c ∈ ds := by
  induction fuel generalizing n ds with
  | zero => intro c hc; exact Or.inr (by simpa [Nat.toDigitsCore] using hc)
  | succ fuel ih =>
    intro c hc
    simp only [Nat.toDigitsCore] at hc
    split at hc
    · rcases List.mem_cons.1 hc with rfl | h
      · exact Or.inl (digitChar_mem n)
      · exact Or.inr h
    · rcases ih _ _ c hc with h | h
      · exact Or.inl h
      · rcases List.mem_cons.1 h with rfl | h
        · exact Or.inl (digitChar_mem n)
        · exact Or.inr h

theorem toString_digits (i : Nat) : ∀ c ∈ (toString i).data, c ∈ digitChars := by
  intro c hc
  have h : (toString i).data = Nat.toDigitsCore 10 (i + 1) i [] := rfl
  rw [h] at hc
  rcases toDigitsCore_mem _ _ _ c hc with h | h
  · exact h
  · cases h

theorem tame_digits (m : String) (hm : startsPlain m = true) (i : Nat) :
    Tame m (toString i) 0 := by
  unfold startsPlain at hm
  have key : freeOf m.data (toString i).data = true := by
    cases hd : m.data with
    | nil => rw [hd] at hm; cases hm
    | cons c0 rest =>
      rw [hd] at hm
      apply freeOf_of_forall_ne
      intro c hc heq
      subst heq
      have := toString_digits i c hc
      simp at hm
      exact hm this
  exact ⟨closedFor_of_freeOf key, occ_of_freeOf key⟩

theorem tame_workerBlocks {m : String} {a b : Nat} (hm : startsPlain m = true)
    (ho : Tame m workerOpen a) (hc : Tame m workerClose b) (is : List Nat) :
    Tame m (workerBlocks is) (is.length * (a + b)) := by
  induction is with
  | nil => simpa [workerBlocks] using tame_empty m
  | cons i rest ih =>
    have h1 : Tame m (workerBlock i) (a + 0 + b) :=
      tame_append (tame_append ho (tame_digits m hm i)) hc
    have h2 := tame_append h1 ih
    have e : a + 0 + b + rest.length * (a + b) = (i :: rest).length * (a + b) := by
      simp only [List.length_cons]; ring
    rw [e] at h2
    exact h2

theorem tame_of_table {m : String} {c0 c1 c2 c3 c4 c5 c6 c7 c8 c9 c10 c11 : Nat}
    (h : fragmentTable m [c0, c1, c2, c3, c4, c5, c6, c7, c8, c9, c10, c11] = true) :
    Tame m tmplHead c0 ∧ Tame m gcpBlock c1 ∧ Tame m tmplGap1 c2 ∧ Tame m azureBlock c3 ∧
    Tame m tmplGap2 c4 ∧ Tame m awsBlock c5 ∧ Tame m tmplGap3 c6 ∧ Tame m workerOpen c7 ∧
    Tame m workerClose c8 ∧ Tame m tmplGap4 c9 ∧ Tame m zonesBlock c10 ∧ Tame m tmplTail c11 := by
  simp only [fragmentTable, List.zip_cons_cons, List.zip_nil_right, List.all_cons, List.all_nil,
    Bool.and_eq_true, beq_iff_eq, Bool.and_true] at h
  obtain ⟨h0, h1, h2, h3, h4, h5, h6, h7, h8, h9, h10, h11⟩ := h
  exact ⟨h0, h1, h2, h3, h4, h5, h6, h7, h8, h9, h10, h11⟩

theorem tame_document {m : String} {c0 c1 c2 c3 c4 c5 c6 c7 c8 c9 c10 c11 : Nat}
    (hm : startsPlain m = true)
    (h : fragmentTable m [c0, c1, c2, c3, c4, c5, c6, c7, c8, c9, c10, c11] = true)
    (t : String) (is : List Nat) :
    Tame m (documentFront t)
        (c0 + (if t = "gcp" then c1 else 0) + c2 + (if t = "azure" then c3 else 0) + c4 +
          (if t = "aws" then c5 else 0) + c6) ∧
    Tame m (workerBlocks is) (is.length * (c7 + c8)) ∧
    Tame m (documentBack t) (c9 + (if t = "azure" then 0 else c10) + c11) := by
  obtain ⟨h0, h1, h2, h3, h4, h5, h6, h7, h8, h9, h10, h11⟩ := tame_of_table h
  refine ⟨?_, tame_workerBlocks hm h7 h8 is, ?_⟩
  · exact tame_append (tame_append (tame_append (tame_append (tame_append (tame_append h0
      (tame_ite _ h1 (tame_empty m))) h2) (tame_ite _ h3 (tame_empty m))) h4)
      (tame_ite _ h5 (tame_empty m))) h6
  · exact tame_append (tame_append h9 (tame_ite _ (tame_empty m) h10)) h11

theorem count_document {m : String} {c0 c1 c2 c3 c4 c5 c6 c7 c8 c9 c10 c11 : Nat}
    (hm : startsPlain m = true)
    (h : fragmentTable m [c0, c1, c2, c3, c4, c5, c6, c7, c8, c9, c10, c11] = true)
    (t : String) (is : List Nat) :
    count (document t is) m =
      (c0 + (if t = "gcp" then c1 else 0) + c2 + (if t = "azure" then c3 else 0) + c4 +
          (if t = "aws" then c5 else 0) + c6) + is.length * (c7 + c8) +
        (c9 + (if t = "azure" then 0 else c10) + c11) := by
  obtain ⟨hf, hw, hb⟩ := tame_document hm h t is
  exact (tame_append (tame_append hf hw) hb).2

theorem execRange_workers (is : List Nat) :
    execRange [.text workerOpen, .dot, .text workerClose] is = workerBlocks is := by
  induction is with
  | nil => rfl
  | cons i rest ih =>
    simp only [execRange, execItems, workerBlocks, workerBlock, ih, String.append_assoc,
      String.append_empty]

theorem expand_of_target (eqNilFails : Bool) (config : Config) (t : String)
    (ht : config.get? "target_provider" = some (.str t)) :
    expandGardenerClusterTemplate eqNilFails config =
      match tmplSeq (config.get? "node_count") with
      | .error err => .error err
      | .ok is => .ok (document t is) := by
  simp only [expandGardenerClusterTemplate, gardenerClusterTemplate, execNodes, execNode, ht,
    tmplEq, execRange_workers]
  cases tmplSeq (config.get? "node_count") with
  | error err => rfl
  | ok is =>
    simp only [document, documentFront, documentBack, String.append_assoc, String.append_empty,
      beq_iff_eq, Bool.not_eq_true', beq_eq_false_iff_ne, ne_eq, ite_not]

theorem tmplSeq_nat (config : Config) (n : Nat) (hb : 8 * n ≤ maxAlloc)
    (hn : config.get? "node_count" = some (.int (n : Int))) :
    tmplSeq (config.get? "node_count") = .ok (List.range n) := by
  have h1 : ¬ ((n : Int) < 0 ∨ (maxAlloc : Int) < 8 * (n : Int)) := by
    rintro (h | h)
    · omega
    · have : ((8 * n : Nat) : Int) ≤ (maxAlloc : Int) := Int.ofNat_le.2 hb
      push_cast at this
      omega
  simp only [hn, tmplSeq, seq, if_neg h1, Int.toNat_ofNat]

/-- What `validate` accepts, with the name rule as the code tests it: `validate` returns
no error exactly when node count is at least 1, disk size above 0, location, machine
type and Kubernetes version non-empty, the name matched by the pattern of the code,
credentials path and project name non-empty, `target_provider` among gcp, aws, azure,
the eight always mandatory custom keys present, `zone` present for gcp and aws, the
three aws CIDR keys present for aws, and `vnetcidr` present for azure. -/
theorem validate_accepts_iff (e : Errs) (cluster : Cluster) (provider : Provider) :
    validate e cluster provider = none ↔
      (1 ≤ cluster.NodeCount ∧ 0 < cluster.DiskSizeGB ∧
        cluster.Location ≠ "" ∧ cluster.MachineType ≠ "" ∧ cluster.KubernetesVersion ≠ "" ∧
        clusterNamePattern.matchString cluster.Name = true ∧
        provider.CredentialsFilePath ≠ "" ∧ provider.ProjectName ≠ "" ∧
        (targetIs provider "gcp" ∨ targetIs provider "aws" ∨ targetIs provider "azure") ∧
        present provider "target_seed" ∧ present provider "target_secret" ∧
        present provider "disk_type" ∧ present provider "autoscaler_min" ∧
        present provider "autoscaler_max" ∧ present provider "max_surge" ∧
        present provider "max_unavailable" ∧ present provider "workercidr" ∧
        (targetIs provider "gcp" ∨ targetIs provider "aws" → present provider "zone") ∧
        (targetIs provider "aws" → present provider "publicscidr" ∧
          present provider "vpccidr" ∧ present provider "internalscidr") ∧
        (targetIs provider "azure" → present provider "vnetcidr")) := by
  rw [validate_none_iff]
  constructor
  · intro h
    exact ⟨h .nodeCount, h .diskSizeGB, h .location, h .machineType, h .kubernetesVersion,
      h .clusterName, h .credentialsFilePath, h .projectName, h .targetProvider, h .targetSeed,
      h .targetSecret, h .diskType, h .autoscalerMin, h .autoscalerMax, h .maxSurge,
      h .maxUnavailable, h .workercidr, h .zone,
      fun ha => ⟨h .publicscidr ha, h .vpccidr ha, h .internalscidr ha⟩, h .vnetcidr⟩
  · rintro ⟨h1, h2, h3, h4, h5, h6, h7, h8, h9, h10, h11, h12, h13, h14, h15, h16, h17, h18,
      h19, h20⟩ f
    cases f
    · exact h1
    · exact h6
    · exact h3
    · exact h4
    · exact h5
    · exact h2
    · exact h7
    · exact h8
    · exact h9
    · exact h10
    · exact h11
    · exact h12
    · exact h13
    · exact h14
    · exact h15
    · exact h16
    · exact h17
    · exact h18
    · exact fun ha => (h19 ha).1
    · exact fun ha => (h19 ha).2.1
    · exact fun ha => (h19 ha).2.2
    · exact h20

/-- What the error of `validate` names, with each rule as the code tests it: for each
field, a violated rule yields an error whose message contains the field's name; and,
when the literal text of the message formats has no capital `C` or `P`, the message of
any returned error contains no name of a field whose rule is satisfied. -/
theorem validate_error_names_violations (e : Errs) (cluster : Cluster) (provider : Provider)
    (f : Field) :
    (¬ f.satisfied cluster provider →
      ∃ msg, validate e cluster provider = some msg ∧ Mentions msg f.label) ∧
    (e.plain = true → f.satisfied cluster provider →
      ∀ msg, validate e cluster provider = some msg → ¬ Mentions msg f.label) := by
  have hv := validate_eq e cluster provider
  constructor
  · intro hf
    have hne : validateMessage e cluster provider ≠ "" := by
      intro h0
      have h1 : validate e cluster provider = none := by rw [hv]; simp [h0]
      exact hf ((validate_none_iff e cluster provider).1 h1 f)
    exact ⟨_, by rw [hv]; simp [hne], mentions_of_violated e cluster provider f hf⟩
  · intro he hf msg hmsg
    rw [hv] at hmsg
    split at hmsg
    · cases hmsg
      exact not_mentions_of_satisfied e he cluster provider f hf
    · cases hmsg

/-- C1, at the failing input and away from it: the name of 21 lowercase
letters violates the name rule of the specification (at most 20 characters), yet
`validate` returns no error for a cluster with that name whose other fields are valid;
for every input whose name is not 21 characters long, `validate` returns no error
exactly when all rules hold, the name rule being the specification's. -/
theorem validate_accepts_name_outside_spec :
    (specNameRule longName = false ∧
      validate sampleErrs { sampleCluster with Name := longName } (sampleProvider gcpKeys)
        = none) ∧
    (∀ (e : Errs) (cluster : Cluster) (provider : Provider), cluster.Name.length ≠ 21 →
      (validate e cluster provider = none ↔
        (1 ≤ cluster.NodeCount ∧ 0 < cluster.DiskSizeGB ∧
          cluster.Location ≠ "" ∧ cluster.MachineType ≠ "" ∧
          cluster.KubernetesVersion ≠ "" ∧
          specNameRule cluster.Name = true ∧
          provider.CredentialsFilePath ≠ "" ∧ provider.ProjectName ≠ "" ∧
          (targetIs provider "gcp" ∨ targetIs provider "aws" ∨ targetIs provider "azure") ∧
          present provider "target_seed" ∧ present provider "target_secret" ∧
          present provider "disk_type" ∧ present provider "autoscaler_min" ∧
          present provider "autoscaler_max" ∧ present provider "max_surge" ∧
          present provider "max_unavailable" ∧ present provider "workercidr" ∧
          (targetIs provider "gcp" ∨ targetIs provider "aws" → present provider "zone") ∧
          (targetIs provider "aws" → present provider "publicscidr" ∧
            present provider "vpccidr" ∧ present provider "internalscidr") ∧
          (targetIs provider "azure" → present provider "vnetcidr")))) := by
  refine ⟨⟨by decide, ?_⟩, ?_⟩
  · rw [validate_none_iff]
    intro f
    cases f <;> decide
  · intro e cluster provider hlen
    have hname : clusterNamePattern.matchString cluster.Name = true ↔
        specNameRule cluster.Name = true := by
      rw [clusterNamePattern_vs_spec]
      exact ⟨fun h => h.elim id (fun h2 => absurd h2.1 hlen), Or.inl⟩
    rw [validate_accepts_iff, hname]

/-- C2, at the failing input and away from it: a cluster with node count 0,
an empty location and a name of 21 letters violates three rules of the specification;
the error names `Cluster.NodeCount` and `Cluster.Location`, so not only the first
violation, but it does not name `Cluster.Name`. For every input and every field other
than the name, a violated rule is named in the error, and a satisfied one is not when
the literal text of the message formats has no capital `C` or `P`. -/
theorem validate_error_omits_long_name :
    (specNameRule threeFaultsCluster.Name = false ∧
      ∃ msg, validate sampleErrs threeFaultsCluster (sampleProvider gcpKeys) = some msg ∧
        Mentions msg "Cluster.NodeCount" ∧ Mentions msg "Cluster.Location" ∧
        ¬ Mentions msg "Cluster.Name") ∧
    (∀ (e : Errs) (cluster : Cluster) (provider : Provider) (f : Field),
      f ≠ Field.clusterName →
        (¬ f.satisfied cluster provider →
          ∃ msg, validate e cluster provider = some msg ∧ Mentions msg f.label) ∧
        (e.plain = true → f.satisfied cluster provider →
          ∀ msg, validate e cluster provider = some msg → ¬ Mentions msg f.label)) := by
  refine ⟨⟨by decide, ?_⟩, fun e cluster provider f _ =>
    validate_error_names_violations e cluster provider f⟩
  have hne : validateMessage sampleErrs threeFaultsCluster (sampleProvider gcpKeys) ≠ "" := by
    intro h0
    have h1 : validate sampleErrs threeFaultsCluster (sampleProvider gcpKeys) = none := by
      rw [validate_eq]; simp [h0]
    have h2 := (validate_none_iff _ _ _).1 h1 Field.nodeCount
    revert h2
    decide
  refine ⟨validatePrefix ++ validateMessage sampleErrs threeFaultsCluster
    (sampleProvider gcpKeys), by rw [validate_eq]; simp [hne], ?_, ?_, ?_⟩
  · exact mentions_of_violated sampleErrs threeFaultsCluster (sampleProvider gcpKeys)
      Field.nodeCount (by decide)
  · exact mentions_of_violated sampleErrs threeFaultsCluster (sampleProvider gcpKeys)
      Field.location (by decide)
  · exact not_mentions_of_satisfied sampleErrs (by decide) threeFaultsCluster
      (sampleProvider gcpKeys) Field.clusterName (by decide)

/-- C3, at the failing input: a name of 21 lowercase letters matches the pattern of
`validate`, so a valid cluster with that name passes validation, although the message
for the name allows a letter followed by at most 19 characters. -/
theorem validate_accepts_name_of_21 :
    longName.length = 21 ∧ clusterNamePattern.matchString longName = true ∧
      validate sampleErrs { sampleCluster with Name := longName } (sampleProvider gcpKeys)
        = none := by
  refine ⟨by decide, by decide, ?_⟩
  rw [validate_none_iff]
  intro f
  cases f <;> decide

/-- C5: on a status that carries a last-operation record, `convertGardenertatus` returns a
phase that depends only on the native state: Processing gives Provisioning, Pending
gives Pending, Succeeded gives Provisioned, Error, Failed and Aborted give Errored, and
every other state gives Unknown. -/
theorem convertGardenertatus_table (state : String) :
    ∃ phase, convertGardenertatus { LastOperation := some { State := state } }
        = Outcome.returned phase ∧
      (state = "Processing" → phase = Phase.Provisioning) ∧
      (state = "Pending" → phase = Phase.Pending) ∧
      (state = "Succeeded" → phase = Phase.Provisioned) ∧
      (state = "Error" ∨ state = "Failed" ∨ state = "Aborted" → phase = Phase.Errored) ∧
      (state ∉ ["Processing", "Pending", "Succeeded", "Error", "Failed", "Aborted"] →
        phase = Phase.Unknown) := by
  refine ⟨phaseOfState state, rfl, ?_, ?_, ?_, ?_, ?_⟩
  · rintro rfl; decide
  · rintro rfl; decide
  · rintro rfl; decide
  · rintro (rfl | rfl | rfl) <;> decide
  · intro h
    simp only [List.mem_cons, List.mem_singleton, List.not_mem_nil, or_false, not_or] at h
    obtain ⟨h1, h2, h3, h4, h5, h6⟩ := h
    simp [phaseOfState, LastOperationStateProcessing, LastOperationStatePending,
      LastOperationStateSucceeded, LastOperationStateError, LastOperationStateFailed,
      LastOperationStateAborted, h1, h2, h3, h4, h5, h6]

/-- C5, at concrete inputs: the state Failed is translated to Errored and the
state Deleting, which is not in the table, to Unknown. -/
theorem convertGardenertatus_table_witness :
    convertGardenertatus { LastOperation := some { State := "Failed" } }
        = Outcome.returned Phase.Errored ∧
      convertGardenertatus { LastOperation := some { State := "Deleting" } }
        = Outcome.returned Phase.Unknown := by
  obtain ⟨p1, h1, _, _, _, h14, _⟩ := convertGardenertatus_table "Failed"
  obtain ⟨p2, h2, _, _, _, _, h25⟩ := convertGardenertatus_table "Deleting"
  rw [h1, h2, h14 (Or.inr (Or.inl rfl)), h25 (by decide)]
  exact ⟨rfl, rfl⟩

/-! ## Claims on `expandGardenerClusterTemplate` -/

theorem expand_ok_inv (eqNilFails : Bool) (config : Config) (t out : String)
    (ht : config.get? "target_provider" = some (.str t))
    (hout : expandGardenerClusterTemplate eqNilFails config = .ok out) :
    ∃ is, out = document t is := by
  rw [expand_of_target eqNilFails config t ht] at hout
  cases h : tmplSeq (config.get? "node_count") with
  | error err => rw [h] at hout; cases hout
  | ok is =>
    rw [h] at hout
    exact ⟨is, by injection hout with h'; exact h'.symm⟩

theorem mentions_iff_count_pos (doc m : String) (hm : m.data ≠ []) :
    Mentions doc m ↔ 0 < count doc m :=
  occurs_iff_occ_pos hm

theorem cloudBlock_in_document (t : String) (is : List Nat)
    (hv : t = "gcp" ∨ t = "aws" ∨ t = "azure") : Mentions (document t is) (cloudBlock t) := by
  rcases hv with rfl | rfl | rfl
  · refine ⟨tmplHead.data, (tmplGap1 ++ "" ++ tmplGap2 ++ "" ++ tmplGap3 ++ workerBlocks is ++
      documentBack "gcp").data, ?_⟩
    simp [document, documentFront, cloudBlock, String.data_append]
  · refine ⟨(tmplHead ++ "" ++ tmplGap1 ++ "" ++ tmplGap2).data, (tmplGap3 ++ workerBlocks is ++
      documentBack "aws").data, ?_⟩
    simp [document, documentFront, cloudBlock, String.data_append]
  · refine ⟨(tmplHead ++ "" ++ tmplGap1).data, (tmplGap2 ++ "" ++ tmplGap3 ++ workerBlocks is ++
      documentBack "azure").data, ?_⟩
    simp [document, documentFront, cloudBlock, String.data_append]

theorem gcpMarker_in_block : 0 < count gcpBlock gcpMarker := by decide!

theorem azureMarker_in_block : 0 < count azureBlock azureMarker := by decide!

theorem awsMarker_in_block : 0 < count awsBlock awsMarker := by decide!

/-- C7: when `target_provider` is one of gcp, aws, azure, every rendered document
contains the network block of that target, opens that block exactly once, opens neither
of the other two network blocks, and contains the text of neither of them; and a
document is rendered whenever `node_count` is an integer `n ≥ 0` with
`8 * n ≤ maxAlloc`. -/
theorem expand_selects_cloud_block (eqNilFails : Bool) (config : Config) (t : String)
    (ht : config.get? "target_provider" = some (.str t))
    (hv : t = "gcp" ∨ t = "aws" ∨ t = "azure") :
    (∀ out, expandGardenerClusterTemplate eqNilFails config = .ok out →
      Mentions out (cloudBlock t) ∧
      count out gcpMarker = (if t = "gcp" then 1 else 0) ∧
      count out azureMarker = (if t = "azure" then 1 else 0) ∧
      count out awsMarker = (if t = "aws" then 1 else 0) ∧
      (t ≠ "gcp" → ¬ Mentions out gcpBlock) ∧
      (t ≠ "azure" → ¬ Mentions out azureBlock) ∧
      (t ≠ "aws" → ¬ Mentions out awsBlock)) ∧
    (∀ n : Nat, 8 * n ≤ maxAlloc → config.get? "node_count" = some (.int (n : Int)) →
      ∃ out, expandGardenerClusterTemplate eqNilFails config = .ok out) := by
  constructor
  · intro out hout
    obtain ⟨is, rfl⟩ := expand_ok_inv eqNilFails config t out ht hout
    have hg : count (document t is) gcpMarker = (if t = "gcp" then 1 else 0) := by
      rw [count_document (by decide) gcpTable]; simp
    have hz : count (document t is) azureMarker = (if t = "azure" then 1 else 0) := by
      rw [count_document (by decide) azureTable]; simp
    have ha : count (document t is) awsMarker = (if t = "aws" then 1 else 0) := by
      rw [count_document (by decide) awsTable]; simp
    have absent : ∀ (block marker : String), marker.data ≠ [] → Mentions block marker →
        count (document t is) marker = 0 → ¬ Mentions (document t is) block := by
      intro block marker hne hin h0 hblock
      have h1 := (mentions_iff_count_pos _ _ hne).1 (occurs_trans hin hblock)
      omega
    refine ⟨cloudBlock_in_document t is hv, hg, hz, ha, ?_, ?_, ?_⟩
    · intro hne
      exact absent gcpBlock gcpMarker (by decide)
        ((mentions_iff_count_pos _ _ (by decide)).2 gcpMarker_in_block) (by rw [hg]; simp [hne])
    · intro hne
      exact absent azureBlock azureMarker (by decide)
        ((mentions_iff_count_pos _ _ (by decide)).2 azureMarker_in_block) (by rw [hz]; simp [hne])
    · intro hne
      exact absent awsBlock awsMarker (by decide)
        ((mentions_iff_count_pos _ _ (by decide)).2 awsMarker_in_block) (by rw [ha]; simp [hne])
  · intro n hb hn
    exact ⟨_, by rw [expand_of_target eqNilFails config t ht, tmplSeq_nat config n hb hn]⟩

/-- C7, at concrete inputs: with two workers, the gcp document contains the gcp block
and not the aws block, and the aws document contains the aws block and not the gcp
block. -/
theorem expand_selects_cloud_block_witness :
    (∃ out, expandGardenerClusterTemplate true
        [("target_provider", .str "gcp"), ("node_count", .int 2)] = .ok out ∧
      Mentions out gcpBlock ∧ ¬ Mentions out awsBlock) ∧
    (∃ out, expandGardenerClusterTemplate true
        [("target_provider", .str "aws"), ("node_count", .int 2)] = .ok out ∧
      Mentions out awsBlock ∧ ¬ Mentions out gcpBlock) := by
  have g := expand_selects_cloud_block true
    [("target_provider", .str "gcp"), ("node_count", .int 2)] "gcp" rfl (Or.inl rfl)
  have a := expand_selects_cloud_block true
    [("target_provider", .str "aws"), ("node_count", .int 2)] "aws" rfl (Or.inr (Or.inl rfl))
  obtain ⟨og, hog⟩ := g.2 2 (by decide) rfl
  obtain ⟨oa, hoa⟩ := a.2 2 (by decide) rfl
  exact ⟨⟨og, hog, (g.1 og hog).1, (g.1 og hog).2.2.2.2.2.2 (by decide)⟩,
    ⟨oa, hoa, (a.1 oa hoa).1, (a.1 oa hoa).2.2.2.2.1 (by decide)⟩⟩

/-- C8: when `target_provider` is a string, every rendered document contains the
availability-zone declaration if and only if the target is not azure, and then exactly
once; and a document is rendered whenever `node_count` is an integer `n ≥ 0` with
`8 * n ≤ maxAlloc`. -/
theorem expand_zones_iff_not_azure (eqNilFails : Bool) (config : Config) (t : String)
    (ht : config.get? "target_provider" = some (.str t)) :
    (∀ out, expandGardenerClusterTemplate eqNilFails config = .ok out →
      (Mentions out zonesDecl ↔ t ≠ "azure") ∧
      count out zonesDecl = (if t = "azure" then 0 else 1)) ∧
    (∀ n : Nat, 8 * n ≤ maxAlloc → config.get? "node_count" = some (.int (n : Int)) →
      ∃ out, expandGardenerClusterTemplate eqNilFails config = .ok out) := by
  constructor
  · intro out hout
    obtain ⟨is, rfl⟩ := expand_ok_inv eqNilFails config t out ht hout
    have hz : count (document t is) zonesDecl = (if t = "azure" then 0 else 1) := by
      rw [count_document (by decide) zonesTable]; simp
    refine ⟨?_, hz⟩
    rw [mentions_iff_count_pos _ _ (by decide), hz]
    by_cases h : t = "azure" <;> simp [h]
  · intro n hb hn
    exact ⟨_, by rw [expand_of_target eqNilFails config t ht, tmplSeq_nat config n hb hn]⟩

/-- C8, at concrete inputs: the azure document has no availability-zone declaration,
the gcp document has one. -/
theorem expand_zones_iff_not_azure_witness :
    (∃ out, expandGardenerClusterTemplate true
        [("target_provider", .str "azure"), ("node_count", .int 1)] = .ok out ∧
      ¬ Mentions out zonesDecl) ∧
    (∃ out, expandGardenerClusterTemplate true
        [("target_provider", .str "gcp"), ("node_count", .int 1)] = .ok out ∧
      Mentions out zonesDecl) := by
  have z := expand_zones_iff_not_azure true
    [("target_provider", .str "azure"), ("node_count", .int 1)] "azure" rfl
  have g := expand_zones_iff_not_azure true
    [("target_provider", .str "gcp"), ("node_count", .int 1)] "gcp" rfl
  obtain ⟨oz, hoz⟩ := z.2 1 (by decide) rfl
  obtain ⟨og, hog⟩ := g.2 1 (by decide) rfl
  exact ⟨⟨oz, hoz, fun h => ((z.1 oz hoz).1.1 h) rfl⟩,
    ⟨og, hog, (g.1 og hog).1.2 (by decide)⟩⟩

/-! ## Claims on `Terraform.Create` -/

theorem wrap_provision (err : String) :
    wrap (some err) "unable to provision cluster" =
      some ("unable to provision cluster: " ++ err) := by
  simp only [wrap, Option.map_some', String.append_assoc]
  rfl

theorem wrap_decode (err : String) :
    wrap (some err) "Unable to decode certificate data" =
      some ("Unable to decode certificate data: " ++ err) := by
  simp only [wrap, Option.map_some', String.append_assoc]
  rfl

theorem decode_ne_provision (cause applyErr : String) :
    "Unable to decode certificate data: " ++ cause ≠
      "unable to provision cluster: " ++ applyErr := by
  intro h
  have h2 := congrArg String.data h
  simp only [String.data_append] at h2
  simp at h2

/-- C9: when `newPlatform` succeeds and the engine run fails with error `err`, handing
back `state`, `Create` returns a non-nil error (the wrapped `err`) together with a
non-nil `ClusterInfo` whose `InternalState` is non-nil and holds `state`, and whose
phase is Errored. -/
theorem create_apply_failure_keeps_state (x : Externals) (providerType : ProviderType)
    (configuration : Config) (platform : Platform) (state : Option State) (err : String)
    (hp : newPlatform x.eqNilFails providerType configuration = .ok platform)
    (ha : x.apply platform x.newState false = (state, some err)) :
    ∃ info, Terraform.Create x providerType configuration =
        .returned (some info, some ("unable to provision cluster: " ++ err)) ∧
      info.InternalState = some { TerraformState := state } ∧
      info.Status = some { Phase := Phase.Errored } := by
  refine ⟨erroredInfo state, ?_, rfl, rfl⟩
  simp only [Terraform.Create, hp, ha, wrap_provision]

/-- C9, at a concrete input: for the GCP provider, a failing engine run that hands back
a state with one module yields the wrapped error and a `ClusterInfo` holding that state
in phase Errored. -/
theorem create_apply_failure_keeps_state_witness :
    ∃ info, Terraform.Create (failingExternals (some { Modules := [{ Outputs := [] }] }))
        GCP [] = .returned (some info, some "unable to provision cluster: plan failed") ∧
      info.InternalState = some { TerraformState := some { Modules := [{ Outputs := [] }] } } ∧
      info.Status = some { Phase := Phase.Errored } :=
  create_apply_failure_keeps_state (failingExternals (some { Modules := [{ Outputs := [] }] }))
    GCP [] { template := gcpClusterTemplate, providerName := "google", vars := [] }
    (some { Modules := [{ Outputs := [] }] }) "plan failed" rfl rfl

/-- C10 as stated fails: with an endpoint output and a certificate output that is not
valid base64, the engine run succeeds but the returned `ClusterInfo` has an empty
`Endpoint`, not the string form of the endpoint output. -/
theorem create_endpoint_dropped_on_bad_certificate :
    ∃ info err,
      Terraform.Create
        (succeedingExternals
          [("endpoint", .str "10.0.0.1"), ("cluster_ca_certificate", .str "%%%")])
        GCP [] = .returned (some info, some err) ∧
      info.Endpoint = "" ∧ info.Endpoint ≠ formatV (.str "10.0.0.1") :=
  ⟨_, _, rfl, rfl, by decide⟩

/-- C10, amended: after a successful engine run that hands back a state with root
module `root`: if the certificate output is absent or decodes to `bytes`, `Create`
returns a nil error and a `ClusterInfo` in phase Provisioned that holds the state, has
`bytes` as certificate data (none when absent) and, if there is an endpoint output, its
string form as `Endpoint`; if the certificate output does not decode, `Create` returns
the wrapped decode error, which differs from every apply-failure error, and a
`ClusterInfo` that holds the state in phase Errored. -/
theorem create_reads_outputs (x : Externals) (providerType : ProviderType)
    (configuration : Config) (platform : Platform) (state : State) (root : ModuleState)
    (others : List ModuleState)
    (hp : newPlatform x.eqNilFails providerType configuration = .ok platform)
    (ha : x.apply platform x.newState false = (some state, none))
    (hm : state.Modules = root :: others) :
    (∀ bytes,
      (root.Outputs.get? "cluster_ca_certificate" = none ∧ bytes = []) ∨
        (∃ val, root.Outputs.get? "cluster_ca_certificate" = some val ∧
          x.decodeString (formatV val) = .ok bytes) →
      ∃ info, Terraform.Create x providerType configuration = .returned (some info, none) ∧
        info.CertificateAuthorityData = bytes ∧
        info.Status = some { Phase := Phase.Provisioned } ∧
        info.InternalState = some { TerraformState := some state } ∧
        (∀ val, root.Outputs.get? "endpoint" = some val → info.Endpoint = formatV val)) ∧
    (∀ val cause, root.Outputs.get? "cluster_ca_certificate" = some val →
      x.decodeString (formatV val) = .error cause →
      ∃ info, Terraform.Create x providerType configuration =
          .returned (some info, some ("Unable to decode certificate data: " ++ cause)) ∧
        info.InternalState = some { TerraformState := some state } ∧
        info.Status = some { Phase := Phase.Errored } ∧
        ∀ applyErr, "Unable to decode certificate data: " ++ cause ≠
          "unable to provision cluster: " ++ applyErr) := by
  constructor
  · rintro bytes (⟨hc, rfl⟩ | ⟨val, hc, hd⟩)
    · have h : Terraform.Create x providerType configuration = .returned
          (some { Endpoint := (root.Outputs.get? "endpoint").elim "" formatV
                  CertificateAuthorityData := []
                  InternalState := some { TerraformState := some state }
                  Status := some { Phase := Phase.Provisioned } }, none) := by
        simp only [Terraform.Create, hp, ha, hm, hc]
        cases root.Outputs.get? "endpoint" <;> rfl
      refine ⟨_, h, rfl, rfl, rfl, ?_⟩
      intro val hv
      simp only [hv, Option.elim]
    · have h : Terraform.Create x providerType configuration = .returned
          (some { Endpoint := (root.Outputs.get? "endpoint").elim "" formatV
                  CertificateAuthorityData := bytes
                  InternalState := some { TerraformState := some state }
                  Status := some { Phase := Phase.Provisioned } }, none) := by
        simp only [Terraform.Create, hp, ha, hm, hc, hd]
        cases root.Outputs.get? "endpoint" <;> rfl
      refine ⟨_, h, rfl, rfl, rfl, ?_⟩
      intro val hv
      simp only [hv, Option.elim]
  · intro val cause hc hd
    refine ⟨erroredInfo (some state), ?_, rfl, rfl, decode_ne_provision cause⟩
    simp only [Terraform.Create, hp, ha, hm, hc, hd, wrap_decode]

/-- C10 amended, at concrete inputs: with endpoint `10.0.0.1` and certificate `aGk=` the
result is Provisioned with certificate bytes 104, 105 and that endpoint; with the
certificate `%%%` the result is the decode error with the state kept in phase Errored. -/
theorem create_reads_outputs_witness :
    (∃ info, Terraform.Create
        (succeedingExternals
          [("endpoint", .str "10.0.0.1"), ("cluster_ca_certificate", .str "aGk=")])
        GCP [] = .returned (some info, none) ∧
      info.CertificateAuthorityData = [104, 105] ∧ info.Endpoint = "10.0.0.1" ∧
      info.Status = some { Phase := Phase.Provisioned }) ∧
    (∃ info, Terraform.Create
        (succeedingExternals
          [("endpoint", .str "10.0.0.1"), ("cluster_ca_certificate", .str "%%%")])
        GCP [] = .returned (some info,
          some "Unable to decode certificate data: illegal base64 data") ∧
      info.InternalState = some { TerraformState := some { Modules :=
        [{ Outputs := [("endpoint", .str "10.0.0.1"),
            ("cluster_ca_certificate", .str "%%%")] }] } } ∧
      info.Status = some { Phase := Phase.Errored }) := by
  have good := (create_reads_outputs
    (succeedingExternals [("endpoint", .str "10.0.0.1"), ("cluster_ca_certificate", .str "aGk=")])
    GCP [] { template := gcpClusterTemplate, providerName := "google", vars := [] }
    { Modules := [{ Outputs :=
        [("endpoint", .str "10.0.0.1"), ("cluster_ca_certificate", .str "aGk=")] }] }
    { Outputs := [("endpoint", .str "10.0.0.1"), ("cluster_ca_certificate", .str "aGk=")] }
    [] rfl rfl rfl).1 [104, 105] (Or.inr ⟨.str "aGk=", rfl, rfl⟩)
  have bad := (create_reads_outputs
    (succeedingExternals [("endpoint", .str "10.0.0.1"), ("cluster_ca_certificate", .str "%%%")])
    GCP [] { template := gcpClusterTemplate, providerName := "google", vars := [] }
    { Modules := [{ Outputs :=
        [("endpoint", .str "10.0.0.1"), ("cluster_ca_certificate", .str "%%%")] }] }
    { Outputs := [("endpoint", .str "10.0.0.1"), ("cluster_ca_certificate", .str "%%%")] }
    [] rfl rfl rfl).2 (.str "%%%") "illegal base64 data" rfl rfl
  obtain ⟨i1, h1, h2, h3, _, h5⟩ := good
  obtain ⟨i2, k1, k2, k3, _⟩ := bad
  exact ⟨⟨i1, h1, h2, h5 (.str "10.0.0.1") rfl, h3⟩, ⟨i2, k1, k2, k3⟩⟩

/-! ## Claims on the provisioner facade -/

theorem wrap_gardener_provision (err : String) :
    wrap (some err) "unable to provision gardener cluster" =
      some ("unable to provision gardener cluster: " ++ err) := by
  simp only [wrap, Option.map_some', String.append_assoc]
  rfl

/-- C11: for a cluster and provider that pass validation, if the operator's `Create`
returns an error, `Provision` returns the cluster as it was given together with the
wrapped error; if `Create` returns no error, `Provision` returns the cluster with
`ClusterInfo` set to the value `Create` returned, every other field as given, and a
nil error. -/
theorem provision_result (e : Errs) (g : gardenerProvisioner) (cluster : Cluster)
    (provider : Provider) (hv : validate e cluster provider = none) :
    (∀ info err,
      g.operator.Create provider.Type_ (loadConfigurations cluster provider) =
          .returned (info, some err) →
        (Provision e g cluster provider).result =
          .returned (some cluster, some ("unable to provision gardener cluster: " ++ err))) ∧
    (∀ info,
      g.operator.Create provider.Type_ (loadConfigurations cluster provider) =
          .returned (info, none) →
        ∃ updated, (Provision e g cluster provider).result = .returned (some updated, none) ∧
          updated.ClusterInfo = info ∧ updated.Name = cluster.Name ∧
          updated.NodeCount = cluster.NodeCount ∧ updated.DiskSizeGB = cluster.DiskSizeGB ∧
          updated.MachineType = cluster.MachineType ∧
          updated.KubernetesVersion = cluster.KubernetesVersion ∧
          updated.Location = cluster.Location) := by
  constructor
  · intro info err hc
    simp only [Provision, hv, hc, wrap_gardener_provision]
  · intro info hc
    refine ⟨{ cluster with ClusterInfo := info }, ?_, rfl, rfl, rfl, rfl, rfl, rfl, rfl⟩
    simp only [Provision, hv, hc]

/-- C11, at concrete inputs: with an operator whose `Create` fails, the valid sample
cluster comes back unchanged with the wrapped error; with an operator whose `Create`
succeeds, it comes back with the returned `ClusterInfo` attached and its name kept. -/
theorem provision_result_witness :
    (Provision sampleErrs { operator := failingOperator } sampleCluster
        (sampleProvider gcpKeys)).result =
      .returned (some sampleCluster, some ("unable to provision gardener cluster: " ++
        "unable to provision cluster: plan failed")) ∧
    (∃ updated, (Provision sampleErrs { operator := succeedingOperator } sampleCluster
        (sampleProvider gcpKeys)).result = .returned (some updated, none) ∧
      updated.ClusterInfo = some sampleInfo ∧ updated.Name = "my-cluster") := by
  have hv : validate sampleErrs sampleCluster (sampleProvider gcpKeys) = none := by
    rw [validate_none_iff]; intro f; cases f <;> decide
  have h1 := (provision_result sampleErrs { operator := failingOperator } sampleCluster
    (sampleProvider gcpKeys) hv).1 (some (erroredInfo none))
    "unable to provision cluster: plan failed" rfl
  obtain ⟨u, h2, h3, h4, _⟩ := (provision_result sampleErrs { operator := succeedingOperator }
    sampleCluster (sampleProvider gcpKeys) hv).2 (some sampleInfo) rfl
  exact ⟨h1, u, h2, h3, h4⟩

/-- C12: when `validate` returns an error, each of `Provision`, `Deprovision`, `Status`
and `Credentials` returns that error and makes no call to a collaborator (no `Create`,
no `Delete`, no client call); and when `validate` returns no error, none of the four
stops that way: each makes a call or, for `Deprovision` on a cluster without
`ClusterInfo`, panics. -/
theorem validation_error_stops_every_operation (e : Errs) (g : gardenerProvisioner)
    (k : Kube) (cluster : Cluster) (provider : Provider) :
    (∀ err, validate e cluster provider = some err →
      (Provision e g cluster provider).calls = [] ∧
      (Provision e g cluster provider).result = .returned (none, some err) ∧
      (Deprovision e g cluster provider).calls = [] ∧
      (Deprovision e g cluster provider).result = .returned (some err) ∧
      (Status e k cluster provider).calls = [] ∧
      (Status e k cluster provider).result = .returned (none, some err) ∧
      (Credentials e k cluster provider).calls = [] ∧
      (Credentials e k cluster provider).result = .returned ([], some err)) ∧
    (validate e cluster provider = none →
      (Provision e g cluster provider).calls ≠ [] ∧
      ((Deprovision e g cluster provider).calls ≠ [] ∨
        (Deprovision e g cluster provider).result = .panicked) ∧
      (Status e k cluster provider).calls ≠ [] ∧
      (Credentials e k cluster provider).calls ≠ []) := by
  constructor
  · intro err h
    simp only [Provision, Deprovision, Status, Credentials, h, and_self]
  · intro h
    refine ⟨?_, ?_, ?_, ?_⟩
    · simp only [Provision, h]
      cases hc : g.operator.Create provider.Type_ (loadConfigurations cluster provider) with
      | panicked => simp
      | returned r =>
        obtain ⟨info, err⟩ := r
        cases err <;> simp
    · simp only [Deprovision, h]
      cases hi : cluster.ClusterInfo with
      | none => right; rfl
      | some info =>
        left
        cases hd : g.operator.Delete info.InternalState provider.Type_
          (loadConfigurations cluster provider) <;> simp [hd]
    · simp only [Status, h]
      cases h1 : k.buildConfigFromFlags provider.CredentialsFilePath with
      | error err => simp
      | ok c =>
        cases h2 : k.newGardenerClient c with
        | some err => simp [h2]
        | none =>
          cases h3 : k.getShoot ("garden-" ++ provider.ProjectName) cluster.Name <;>
            simp [h2, h3]
    · simp only [Credentials, h]
      cases h1 : k.buildConfigFromFlags provider.CredentialsFilePath with
      | error err => simp
      | ok c =>
        cases h2 : k.newKubernetesClient c with
        | some err => simp [h2]
        | none =>
          cases h3 : k.getSecret ("garden-" ++ provider.ProjectName)
            (cluster.Name ++ ".kubeconfig") <;> simp [h2, h3]

/-- C12, at a concrete input: the sample cluster with node count 0 is rejected by all
four operations with the same error and without any call. -/
theorem validation_error_stops_every_operation_witness :
    ∃ err, validate sampleErrs invalidCluster (sampleProvider gcpKeys) = some err ∧
      (Provision sampleErrs { operator := succeedingOperator } invalidCluster
        (sampleProvider gcpKeys)).calls = [] ∧
      (Deprovision sampleErrs { operator := succeedingOperator } invalidCluster
        (sampleProvider gcpKeys)).result = .returned (some err) ∧
      (Status sampleErrs sampleKube invalidCluster (sampleProvider gcpKeys)).calls = [] ∧
      (Credentials sampleErrs sampleKube invalidCluster (sampleProvider gcpKeys)).result =
        .returned ([], some err) := by
  have hne : validate sampleErrs invalidCluster (sampleProvider gcpKeys) ≠ none := by
    intro h
    have := (validate_none_iff _ _ _).1 h Field.nodeCount
    revert this
    decide
  obtain ⟨err, herr⟩ := Option.ne_none_iff_exists'.1 hne
  obtain ⟨h1, _, _, h4, h5, _, _, h8⟩ :=
    (validation_error_stops_every_operation sampleErrs { operator := succeedingOperator }
      sampleKube invalidCluster (sampleProvider gcpKeys)).1 err herr
  exact ⟨err, herr, h1, h4, h5, h8⟩

theorem newPlatform_unsupported (providerType : ProviderType) (configuration : Config)
    (h1 : providerType ≠ GCP) (h2 : providerType ≠ Gardener) :
    ∃ err, ∀ eqNilFails, newPlatform eqNilFails providerType configuration = .error err := by
  by_cases ha : providerType = AWS
  · exact ⟨"aws not supported yet", fun b => by
      unfold newPlatform; rw [if_neg h1, if_pos ha]⟩
  · by_cases hz : providerType = Azure
    · exact ⟨"azure not supported yet", fun b => by
        unfold newPlatform; rw [if_neg h1, if_neg ha, if_pos hz]⟩
    · exact ⟨"unknown provider", fun b => by
        unfold newPlatform; rw [if_neg h1, if_neg ha, if_neg hz, if_neg h2]⟩

/-- C13: `New` builds the Terraform operator for the tag `TerraformOperator` and the
Unknown operator for every other tag; and for every configuration and every provider
type other than GCP and Gardener (AWS and Azure among them), `Terraform.Create` returns
no `ClusterInfo` and a non-nil error and `Terraform.Delete` returns a non-nil error,
whatever the engine would answer, so the engine is not consulted. -/
theorem unsupported_backend_fails (x : Externals) (unknown : Operator)
    (configuration : Config) :
    (New x unknown OperatorType.TerraformOperator).operator = terraformOperator x ∧
    (∀ tag, (New x unknown (OperatorType.other tag)).operator = unknown) ∧
    (∀ providerType, providerType ≠ GCP → providerType ≠ Gardener →
      ∃ err, ∀ (y : Externals) (state : Option InternalState),
        Terraform.Create y providerType configuration = .returned (none, some err) ∧
        Terraform.Delete y state providerType configuration = .returned (some err)) := by
  refine ⟨rfl, fun _ => rfl, ?_⟩
  intro providerType h1 h2
  obtain ⟨err, hp⟩ := newPlatform_unsupported providerType configuration h1 h2
  refine ⟨err, fun y state => ?_⟩
  simp only [Terraform.Create, Terraform.Delete, hp, and_self]

/-- C13, at concrete inputs: for AWS, `Create` returns no `ClusterInfo` and the error
`aws not supported yet`, and `Delete` returns the same error, even with collaborators
whose engine run would succeed. -/
theorem unsupported_backend_fails_witness :
    Terraform.Create (succeedingExternals []) AWS gcpKeys =
        .returned (none, some "aws not supported yet") ∧
      Terraform.Delete (succeedingExternals []) (some { TerraformState := none }) AWS gcpKeys =
        .returned (some "aws not supported yet") := by
  obtain ⟨err, h⟩ := (unsupported_backend_fails (succeedingExternals []) succeedingOperator
    gcpKeys).2.2 AWS (by decide) (by decide)
  have h1 := (h (succeedingExternals []) (some { TerraformState := none })).1
  have h2 := (h (succeedingExternals []) (some { TerraformState := none })).2
  have e : err = "aws not supported yet" := by
    have h3 : Terraform.Create (succeedingExternals []) AWS gcpKeys =
        .returned (none, some "aws not supported yet") := rfl
    rw [h3] at h1
    injection h1 with h1
    injection h1 with _ h1
    injection h1 with h1
    exact h1.symm
  rw [e] at h1 h2
  exact ⟨h1, h2⟩

/-! ## Claims on the installation checker -/

theorem allRunning_iff (items : List Pod) :
    allRunning items = true ↔ ∀ pod ∈ items, pod.Phase = "Running" := by
  induction items with
  | nil => simp [allRunning]
  | cons pod rest ih =>
    simp only [allRunning, PodRunning, ne_eq, ite_not, List.mem_cons, forall_eq_or_imp]
    by_cases h : pod.Phase = "Running"
    · rw [if_pos h.symm, ih]
      exact ⟨fun h2 => ⟨h, h2⟩, fun h2 => h2.2⟩
    · rw [if_neg (fun h2 => h h2.symm)]
      exact ⟨fun h2 => Bool.noConfusion h2, fun h2 => absurd h2.1 h⟩

/-- C14: `IsTillerReady` returns `(true, nil)` exactly when the listing succeeded with
at least one pod and every pod in phase Running; an empty list gives `(false, nil)`; a
list with a pod that is not Running gives `(false, nil)`; a listing error that is "not
found" gives false with a non-nil error. -/
theorem isTillerReady_spec (answer : Except ListError (List Pod)) :
    (IsTillerReady answer = (true, none) ↔
      ∃ pods, answer = .ok pods ∧ pods ≠ [] ∧ ∀ pod ∈ pods, pod.Phase = "Running") ∧
    IsTillerReady (.ok []) = (false, none) ∧
    (∀ pods pod, pod ∈ pods → pod.Phase ≠ "Running" →
      IsTillerReady (.ok pods) = (false, none)) ∧
    (∀ err, err.notFound = true → ∃ msg, IsTillerReady (.error err) = (false, some msg)) := by
  refine ⟨?_, rfl, ?_, ?_⟩
  · cases answer with
    | error err =>
      simp only [IsTillerReady, listTillerPods]
      by_cases h : err.notFound = true <;> simp [h]
    | ok items =>
      simp only [IsTillerReady, listTillerPods, Except.ok.injEq, exists_eq_left']
      cases items with
      | nil => simp
      | cons pod rest =>
        rw [← allRunning_iff]
        by_cases h : allRunning (pod :: rest) = true <;> simp [h]
  · intro pods pod hmem hne
    have h : ¬ allRunning pods = true := fun h => hne ((allRunning_iff pods).1 h pod hmem)
    cases pods with
    | nil => cases hmem
    | cons p rest => simp [IsTillerReady, listTillerPods, h]
  · intro err h
    exact ⟨"error no tiller pods found", by simp [IsTillerReady, listTillerPods, h]⟩

/-- C14, at concrete inputs: two running pods are ready, and a running pod next to a
pending one is not ready and no error. -/
theorem isTillerReady_spec_witness :
    IsTillerReady (.ok [{ Phase := "Running" }, { Phase := "Running" }]) = (true, none) ∧
      IsTillerReady (.ok [{ Phase := "Running" }, { Phase := "Pending" }]) = (false, none) :=
  ⟨(isTillerReady_spec (.ok [{ Phase := "Running" }, { Phase := "Running" }])).1.2
      ⟨_, rfl, by decide, by decide⟩,
   (isTillerReady_spec (.ok [])).2.2.1 [{ Phase := "Running" }, { Phase := "Pending" }]
      { Phase := "Pending" } (by decide) (by decide)⟩

/-- C15: `IsTillerDeployed` returns `(false, nil)` when the listing fails with "not
found" or returns no pod, `(true, nil)` when it returns at least one pod, and false with
a non-nil error for every other listing error; it never returns true with an error. -/
theorem isTillerDeployed_spec (answer : Except ListError (List Pod)) :
    (∀ err, answer = .error err → err.notFound = true →
      IsTillerDeployed answer = (false, none)) ∧
    (answer = .ok [] → IsTillerDeployed answer = (false, none)) ∧
    (∀ pods, answer = .ok pods → pods ≠ [] → IsTillerDeployed answer = (true, none)) ∧
    (∀ err, answer = .error err → err.notFound = false →
      ∃ msg, IsTillerDeployed answer = (false, some msg)) ∧
    ¬ ∃ msg, IsTillerDeployed answer = (true, some msg) := by
  refine ⟨?_, ?_, ?_, ?_, ?_⟩
  · rintro err rfl h
    simp [IsTillerDeployed, listTillerPods, h]
  · rintro rfl
    rfl
  · rintro pods rfl hne
    cases pods with
    | nil => exact absurd rfl hne
    | cons p rest => simp [IsTillerDeployed, listTillerPods]
  · rintro err rfl h
    exact ⟨"error listing tiller pods: " ++ err.message, by
      simp [IsTillerDeployed, listTillerPods, h]⟩
  · rintro ⟨msg, h⟩
    cases answer with
    | error err =>
      simp only [IsTillerDeployed, listTillerPods] at h
      by_cases hn : err.notFound = true <;> simp [hn] at h
    | ok items => simp [IsTillerDeployed, listTillerPods] at h

/-- C15, at concrete inputs: a "not found" error means not deployed without error, one
pod means deployed, and another listing error is reported. -/
theorem isTillerDeployed_spec_witness :
    IsTillerDeployed (.error { notFound := true, message := "pods not found" }) =
        (false, none) ∧
      IsTillerDeployed (.ok [{ Phase := "Pending" }]) = (true, none) ∧
      (∃ msg, IsTillerDeployed (.error { notFound := false, message := "timeout" }) =
        (false, some msg)) :=
  ⟨(isTillerDeployed_spec (.error { notFound := true, message := "pods not found" })).1
      _ rfl rfl,
   (isTillerDeployed_spec (.ok [{ Phase := "Pending" }])).2.2.1 _ rfl (by decide),
   (isTillerDeployed_spec (.error { notFound := false, message := "timeout" })).2.2.2.1
      _ rfl rfl⟩

/-! ## Claim on `Credentials` -/

/-- C16: for a cluster and provider that pass validation, every secret that
`Credentials` requests is the one named `<cluster name>.kubeconfig` in the namespace
`garden-<project name>`; and when the client configuration, the client and that
request succeed, `Credentials` makes exactly that request and returns the bytes stored
under the secret's `kubeconfig` entry with a nil error. -/
theorem credentials_reads_kubeconfig_secret (e : Errs) (k : Kube) (cluster : Cluster)
    (provider : Provider) (hv : validate e cluster provider = none) :
    (∀ ns name, Call.getSecret ns name ∈ (Credentials e k cluster provider).calls →
      ns = "garden-" ++ provider.ProjectName ∧ name = cluster.Name ++ ".kubeconfig") ∧
    (∀ config data, k.buildConfigFromFlags provider.CredentialsFilePath = .ok config →
      k.newKubernetesClient config = none →
      k.getSecret ("garden-" ++ provider.ProjectName) (cluster.Name ++ ".kubeconfig") =
        .ok data →
      (Credentials e k cluster provider).calls =
        [.buildConfig provider.CredentialsFilePath, .newKubernetesClient,
          .getSecret ("garden-" ++ provider.ProjectName) (cluster.Name ++ ".kubeconfig")] ∧
      (Credentials e k cluster provider).result =
        .returned (data.get "kubeconfig", none)) := by
  constructor
  · intro ns name hmem
    simp only [Credentials, hv] at hmem
    cases h1 : k.buildConfigFromFlags provider.CredentialsFilePath with
    | error err => simp [h1] at hmem
    | ok c =>
      cases h2 : k.newKubernetesClient c with
      | some err => simp [h1, h2] at hmem
      | none =>
        cases h3 : k.getSecret ("garden-" ++ provider.ProjectName)
            (cluster.Name ++ ".kubeconfig") <;>
          simpa [h1, h2, h3] using hmem
  · intro config data h1 h2 h3
    simp only [Credentials, hv, h1, h2, h3, and_self]

/-- C16, at a concrete input: for the sample cluster `my-cluster` in project
`my-project`, `Credentials` requests `my-cluster.kubeconfig` in `garden-my-project` and
returns the stored bytes. -/
theorem credentials_reads_kubeconfig_secret_witness :
    (Credentials sampleErrs sampleKube sampleCluster (sampleProvider gcpKeys)).calls =
        [.buildConfig "/path/kubeconfig", .newKubernetesClient,
          .getSecret ("garden-" ++ "my-project") ("my-cluster" ++ ".kubeconfig")] ∧
      (Credentials sampleErrs sampleKube sampleCluster (sampleProvider gcpKeys)).result =
        .returned ([97, 112, 105], none) :=
  (credentials_reads_kubeconfig_secret sampleErrs sampleKube sampleCluster
    (sampleProvider gcpKeys)
    (by rw [validate_none_iff]; intro f; cases f <;> decide)).2
    "rest-config" [("kubeconfig", [97, 112, 105])] rfl rfl rfl

/-! ## Claim on `loadConfigurations` -/

theorem get?_set (m : Config) (k k' : String) (v : Value) :
    (m.set k v).get? k' = if k = k' then some v else m.get? k' := by
  simp [Config.set, Config.get?]

theorem get?_copyEntries (src dst : Config) (k : String) :
    (copyEntries src dst).get? k =
      match src.get? k with
      | some v => some v
      | none => dst.get? k := by
  induction src with
  | nil => rfl
  | cons kv rest ih =>
    obtain ⟨k', v⟩ := kv
    simp only [copyEntries, get?_set, Config.get?]
    by_cases h : k' = k
    · simp [h]
    · simp [h, ih]

theorem loadConfigurations_eq (cluster : Cluster) (provider : Provider) :
    loadConfigurations cluster provider =
      let config := copyEntries provider.CustomConfigurations (typedEntries cluster provider)
      if config.get? "target_provider" = some (.str GCP) then
        config.set "target_profile" (.str gcpProfile)
      else if config.get? "target_provider" = some (.str AWS) then
        config.set "target_profile" (.str awsProfile)
      else if config.get? "target_provider" = some (.str Azure) then
        config.set "target_profile" (.str azureProfile)
      else
        config := rfl

theorem get?_loadConfigurations (cluster : Cluster) (provider : Provider) (k : String)
    (hk : k ≠ "target_profile") :
    (loadConfigurations cluster provider).get? k =
      match provider.CustomConfigurations.get? k with
      | some v => some v
      | none => (typedEntries cluster provider).get? k := by
  have hk' : ¬ "target_profile" = k := fun h => hk h.symm
  rw [loadConfigurations_eq]
  simp only []
  split_ifs <;> simp only [get?_set, if_neg hk', get?_copyEntries]

theorem target_of_loadConfigurations (cluster : Cluster) (provider : Provider) :
    (copyEntries provider.CustomConfigurations (typedEntries cluster provider)).get?
        "target_provider" = provider.CustomConfigurations.get? "target_provider" := by
  rw [get?_copyEntries]
  cases provider.CustomConfigurations.get? "target_provider" with
  | some v => rfl
  | none => simp [typedEntries, Config.get?]

theorem profile_of_loadConfigurations (cluster : Cluster) (provider : Provider) :
    (targetIs provider "gcp" →
      (loadConfigurations cluster provider).get? "target_profile" = some (.str "gcp")) ∧
    (targetIs provider "aws" →
      (loadConfigurations cluster provider).get? "target_profile" = some (.str "aws")) ∧
    (targetIs provider "azure" →
      (loadConfigurations cluster provider).get? "target_profile" = some (.str "az")) := by
  have ht := target_of_loadConfigurations cluster provider
  refine ⟨?_, ?_, ?_⟩ <;>
  · intro h
    unfold targetIs at h
    rw [loadConfigurations_eq]
    simp only [ht, h, GCP, AWS, Azure, gcpProfile, awsProfile, azureProfile]
    simp [get?_set]

/-- C17 as stated fails: for a valid cluster and provider whose custom configuration
has its own `cluster_name` and `target_profile`, the merged map binds `cluster_name` to
the custom value, not to the cluster name, and does not keep the custom
`target_profile`. -/
theorem loadConfigurations_custom_shadows_typed :
    validate sampleErrs sampleCluster (sampleProvider shadowingKeys) = none ∧
    sampleCluster.Name = "my-cluster" ∧
    (loadConfigurations sampleCluster (sampleProvider shadowingKeys)).get? "cluster_name" =
      some (.str "shadow") ∧
    (sampleProvider shadowingKeys).CustomConfigurations.get? "target_profile" =
      some (.str "my-profile") ∧
    (loadConfigurations sampleCluster (sampleProvider shadowingKeys)).get? "target_profile" =
      some (.str "gcp") := by
  refine ⟨?_, rfl, by decide, by decide, by decide⟩
  rw [validate_none_iff]
  intro f
  cases f <;> decide

/-- C17, amended: the map built by `loadConfigurations` binds each typed key to its
typed field (`namespace` to `garden-<project name>`) unless the custom configuration
has an entry for that key; it contains every custom entry except one for
`target_profile`; it binds `target_profile` to `gcp`, `aws` or `az` when
`target_provider` is gcp, aws or azure, which is the case after validation; and
`Provision` passes exactly this map to `Create`, as `Deprovision` does to `Delete`. -/
theorem loadConfigurations_bindings (cluster : Cluster) (provider : Provider) :
    (provider.CustomConfigurations.get? "cluster_name" = none →
      (loadConfigurations cluster provider).get? "cluster_name" =
        some (.str cluster.Name)) ∧
    (provider.CustomConfigurations.get? "credentials_file_path" = none →
      (loadConfigurations cluster provider).get? "credentials_file_path" =
        some (.str provider.CredentialsFilePath)) ∧
    (provider.CustomConfigurations.get? "node_count" = none →
      (loadConfigurations cluster provider).get? "node_count" =
        some (.int cluster.NodeCount)) ∧
    (provider.CustomConfigurations.get? "machine_type" = none →
      (loadConfigurations cluster provider).get? "machine_type" =
        some (.str cluster.MachineType)) ∧
    (provider.CustomConfigurations.get? "disk_size" = none →
      (loadConfigurations cluster provider).get? "disk_size" =
        some (.int cluster.DiskSizeGB)) ∧
    (provider.CustomConfigurations.get? "kubernetes_version" = none →
      (loadConfigurations cluster provider).get? "kubernetes_version" =
        some (.str cluster.KubernetesVersion)) ∧
    (provider.CustomConfigurations.get? "location" = none →
      (loadConfigurations cluster provider).get? "location" =
        some (.str cluster.Location)) ∧
    (provider.CustomConfigurations.get? "namespace" = none →
      (loadConfigurations cluster provider).get? "namespace" =
        some (.str ("garden-" ++ provider.ProjectName))) ∧
    (∀ k v, provider.CustomConfigurations.get? k = some v → k ≠ "target_profile" →
      (loadConfigurations cluster provider).get? k = some v) ∧
    (targetIs provider "gcp" →
      (loadConfigurations cluster provider).get? "target_profile" = some (.str "gcp")) ∧
    (targetIs provider "aws" →
      (loadConfigurations cluster provider).get? "target_profile" = some (.str "aws")) ∧
    (targetIs provider "azure" →
      (loadConfigurations cluster provider).get? "target_profile" = some (.str "az")) ∧
    (∀ e, validate e cluster provider = none →
      (targetIs provider "gcp" ∨ targetIs provider "aws" ∨ targetIs provider "azure") ∧
      (∀ g, (Provision e g cluster provider).calls =
        [.create provider.Type_ (loadConfigurations cluster provider)]) ∧
      (∀ g info, cluster.ClusterInfo = some info →
        (Deprovision e g cluster provider).calls =
          [.delete info.InternalState provider.Type_
            (loadConfigurations cluster provider)])) := by
  have typed : ∀ k, k ≠ "target_profile" → provider.CustomConfigurations.get? k = none →
      (loadConfigurations cluster provider).get? k = (typedEntries cluster provider).get? k := by
    intro k hk hc
    rw [get?_loadConfigurations cluster provider k hk, hc]
  obtain ⟨pg, pa, pz⟩ := profile_of_loadConfigurations cluster provider
  refine ⟨?_, ?_, ?_, ?_, ?_, ?_, ?_, ?_, ?_, pg, pa, pz, ?_⟩
  · intro h; rw [typed _ (by decide) h]; simp [typedEntries, Config.get?]
  · intro h; rw [typed _ (by decide) h]; simp [typedEntries, Config.get?]
  · intro h; rw [typed _ (by decide) h]; simp [typedEntries, Config.get?]
  · intro h; rw [typed _ (by decide) h]; simp [typedEntries, Config.get?]
  · intro h; rw [typed _ (by decide) h]; simp [typedEntries, Config.get?]
  · intro h; rw [typed _ (by decide) h]; simp [typedEntries, Config.get?]
  · intro h; rw [typed _ (by decide) h]; simp [typedEntries, Config.get?]
  · intro h; rw [typed _ (by decide) h]; simp [typedEntries, Config.get?]
  · intro k v hc hk
    rw [get?_loadConfigurations cluster provider k hk, hc]
  · intro e hv
    refine ⟨(validate_none_iff e cluster provider).1 hv Field.targetProvider, ?_, ?_⟩
    · intro g
      simp only [Provision, hv]
      cases hc : g.operator.Create provider.Type_ (loadConfigurations cluster provider) with
      | panicked => rfl
      | returned r =>
        obtain ⟨info, err⟩ := r
        cases err <;> rfl
    · intro g info hi
      simp only [Deprovision, hv, hi]
      cases hd : g.operator.Delete info.InternalState provider.Type_
        (loadConfigurations cluster provider) <;> rfl

/-- C17 amended, at a concrete input: for the sample cluster and a complete gcp
configuration the map binds `cluster_name` to `my-cluster`, keeps the custom `zone`,
binds `target_profile` to `gcp`, and is the map `Provision` passes to `Create`. -/
theorem loadConfigurations_bindings_witness :
    (loadConfigurations sampleCluster (sampleProvider gcpKeys)).get? "cluster_name" =
      some (.str "my-cluster") ∧
    (loadConfigurations sampleCluster (sampleProvider gcpKeys)).get? "zone" =
      some (.str "europe-west3-b") ∧
    (loadConfigurations sampleCluster (sampleProvider gcpKeys)).get? "target_profile" =
      some (.str "gcp") ∧
    (Provision sampleErrs { operator := succeedingOperator } sampleCluster
      (sampleProvider gcpKeys)).calls =
      [.create "gardener" (loadConfigurations sampleCluster (sampleProvider gcpKeys))] := by
  have h := loadConfigurations_bindings sampleCluster (sampleProvider gcpKeys)
  have hv : validate sampleErrs sampleCluster (sampleProvider gcpKeys) = none := by
    rw [validate_none_iff]; intro f; cases f <;> decide
  exact ⟨h.1 (by decide), h.2.2.2.2.2.2.2.2.1 "zone" _ (by decide) (by decide),
    h.2.2.2.2.2.2.2.2.2.1 (by decide),
    (h.2.2.2.2.2.2.2.2.2.2.2.2 sampleErrs hv).2.1 { operator := succeedingOperator }⟩

/-! ## Claim on missing template keys -/

theorem execNodes_error (b : Bool) (config : Config) (nodes : List Node) (node : Node)
    (cause : String) (hmem : node ∈ nodes) (herr : execNode b config node = .error cause) :
    ∃ err, execNodes b config nodes = .error err := by
  induction nodes with
  | nil => cases hmem
  | cons first rest ih =>
    simp only [execNodes]
    cases h1 : execNode b config first with
    | error err => exact ⟨err, rfl⟩
    | ok s =>
      rcases List.mem_cons.1 hmem with rfl | hrest
      · rw [herr] at h1; cases h1
      · obtain ⟨err, h2⟩ := ih hrest
        exact ⟨err, by simp only [h2]⟩

theorem no_apply_of_expand_error (b : Bool) (config : Config) (err : String)
    (h : expandGardenerClusterTemplate b config = .error err) (x : Externals)
    (hx : x.eqNilFails = b) (state : Option InternalState) :
    Terraform.Create x Gardener config = .returned (none, some err) ∧
      Terraform.Delete x state Gardener config = .returned (some err) := by
  have hp : newPlatform x.eqNilFails Gardener config = .error err := by
    unfold newPlatform
    rw [if_neg (by decide), if_neg (by decide), if_neg (by decide), if_pos rfl, hx, h]
  simp only [Terraform.Create, Terraform.Delete, hp, and_self]

/-- C18 as stated fails: a configuration map without `workercidr` and without
`target_seed`, both declared as variables in the template, is expanded into a document
without error. -/
theorem expand_succeeds_without_declared_variables :
    Config.get? [("target_provider", .str "gcp"), ("node_count", .int 1)] "workercidr"
      = none ∧
    Config.get? [("target_provider", .str "gcp"), ("node_count", .int 1)] "target_seed"
      = none ∧
    ∀ eqNilFails, ∃ doc, expandGardenerClusterTemplate eqNilFails
      [("target_provider", .str "gcp"), ("node_count", .int 1)] = .ok doc :=
  ⟨rfl, rfl, fun b => ⟨_, by
    rw [expand_of_target b [("target_provider", .str "gcp"), ("node_count", .int 1)] "gcp" rfl,
      tmplSeq_nat [("target_provider", .str "gcp"), ("node_count", .int 1)] 1 (by decide) rfl]⟩⟩

/-- C18, amended: a configuration map that lacks `node_count`, the key the template's
loop reads, makes `expandGardenerClusterTemplate` fail with a render error, and then
`Create` and `Delete` for the Gardener provider return that error whatever the engine
would answer; the same holds for a map that lacks `target_provider`, the key the
template's branches read, when the template library's `eq` rejects a missing operand. -/
theorem expand_fails_without_action_keys (eqNilFails : Bool) (config : Config) :
    (config.get? "node_count" = none →
      ∃ err, expandGardenerClusterTemplate eqNilFails config = .error err ∧
        ∀ (x : Externals) (state : Option InternalState), x.eqNilFails = eqNilFails →
          Terraform.Create x Gardener config = .returned (none, some err) ∧
          Terraform.Delete x state Gardener config = .returned (some err)) ∧
    (eqNilFails = true → config.get? "target_provider" = none →
      ∃ err, expandGardenerClusterTemplate eqNilFails config = .error err ∧
        ∀ (x : Externals) (state : Option InternalState), x.eqNilFails = eqNilFails →
          Terraform.Create x Gardener config = .returned (none, some err) ∧
          Terraform.Delete x state Gardener config = .returned (some err)) := by
  constructor
  · intro h
    obtain ⟨err, herr⟩ := execNodes_error eqNilFails config gardenerClusterTemplate
      (.rangeSeq "node_count" [.text workerOpen, .dot, .text workerClose])
      "invalid value; expected int" (by simp [gardenerClusterTemplate])
      (by simp [execNode, h, tmplSeq])
    exact ⟨err, herr, fun x state hx =>
      no_apply_of_expand_error eqNilFails config err herr x hx state⟩
  · intro hb h
    obtain ⟨err, herr⟩ := execNodes_error eqNilFails config gardenerClusterTemplate
      (.ifEq "target_provider" "gcp" gcpBlock)
      "error calling eq: invalid type for comparison" (by simp [gardenerClusterTemplate])
      (by simp [execNode, h, tmplEq, hb])
    exact ⟨err, herr, fun x state hx =>
      no_apply_of_expand_error eqNilFails config err herr x hx state⟩

/-- C18 amended, at a concrete input: a map with only `target_provider` fails to expand,
and `Create` returns the render error without a `ClusterInfo`. -/
theorem expand_fails_without_action_keys_witness :
    ∃ err, expandGardenerClusterTemplate true [("target_provider", .str "gcp")] = .error err ∧
      Terraform.Create (succeedingExternals []) Gardener [("target_provider", .str "gcp")] =
        .returned (none, some err) := by
  obtain ⟨err, h1, h2⟩ := (expand_fails_without_action_keys true
    [("target_provider", .str "gcp")]).1 rfl
  exact ⟨err, h1, (h2 (succeedingExternals []) none rfl).1⟩

/-! ## Absent values in `Deprovision` and `convertGardenertatus` -/

theorem delete_nil_state_panics (x : Externals) (providerType : ProviderType)
    (configuration : Config) (platform : Platform)
    (hp : newPlatform x.eqNilFails providerType configuration = .ok platform) :
    Terraform.Delete x none providerType configuration = .panicked := by
  simp only [Terraform.Delete, hp]

/-- C19, at the failing inputs: the valid sample cluster has never been provisioned
(`ClusterInfo` is nil), and `Deprovision` panics before `Delete` is called; with a
`ClusterInfo` whose `InternalState` is nil, `Deprovision` calls `Delete` of the
Terraform operator, which panics reading the state. -/
theorem deprovision_panics_without_state :
    validate sampleErrs sampleCluster (sampleProvider gcpKeys) = none ∧
    sampleCluster.ClusterInfo = none ∧
    (Deprovision sampleErrs { operator := terraformOperator (succeedingExternals []) }
        sampleCluster (sampleProvider gcpKeys)).result = .panicked ∧
    (Deprovision sampleErrs { operator := terraformOperator (succeedingExternals []) }
        sampleCluster (sampleProvider gcpKeys)).calls = [] ∧
    (Deprovision sampleErrs { operator := terraformOperator (succeedingExternals []) }
        { sampleCluster with ClusterInfo := some { sampleInfo with InternalState := none } }
        (sampleProvider gcpKeys)).result = .panicked := by
  have hv : validate sampleErrs sampleCluster (sampleProvider gcpKeys) = none := by
    rw [validate_none_iff]; intro f; cases f <;> decide
  have hv2 : validate sampleErrs
      { sampleCluster with ClusterInfo := some { sampleInfo with InternalState := none } }
      (sampleProvider gcpKeys) = none := hv
  have hex : expandGardenerClusterTemplate true
      (loadConfigurations sampleCluster (sampleProvider gcpKeys)) =
        .ok (document "gcp" (List.range 3)) := by
    rw [expand_of_target true _ "gcp" (by decide), tmplSeq_nat _ 3 (by decide) (by decide)]
  have hp : newPlatform (succeedingExternals []).eqNilFails (sampleProvider gcpKeys).Type_
      (loadConfigurations sampleCluster (sampleProvider gcpKeys)) =
        .ok { template := document "gcp" (List.range 3), providerName := "gardener",
              vars := loadConfigurations sampleCluster (sampleProvider gcpKeys) } := by
    have e1 : (succeedingExternals []).eqNilFails = true := rfl
    have e2 : (sampleProvider gcpKeys).Type_ = Gardener := rfl
    rw [e1, e2]
    unfold newPlatform
    rw [if_neg (by decide), if_neg (by decide), if_neg (by decide), if_pos rfl, hex]
  have hd := delete_nil_state_panics (succeedingExternals []) _ _ _ hp
  refine ⟨hv, rfl, ?_, ?_, ?_⟩
  · simp only [Deprovision, hv]
    rfl
  · simp only [Deprovision, hv]
    rfl
  · simp only [Deprovision, hv2]
    have hl : loadConfigurations
        { sampleCluster with ClusterInfo := some { sampleInfo with InternalState := none } }
        (sampleProvider gcpKeys) = loadConfigurations sampleCluster (sampleProvider gcpKeys) :=
      rfl
    simp only [hl, terraformOperator, hd]

/-- C20, at the failing input: on a status without a last-operation record
`convertGardenertatus` panics instead of returning Unknown, and so does `Status` when
the shoot it reads has such a status. -/
theorem convertGardenertatus_panics_without_record :
    convertGardenertatus { LastOperation := none } = .panicked ∧
    (Status sampleErrs { sampleKube with getShoot := fun _ _ => .ok { LastOperation := none } }
      sampleCluster (sampleProvider gcpKeys)).result = .panicked := by
  have hv : validate sampleErrs sampleCluster (sampleProvider gcpKeys) = none := by
    rw [validate_none_iff]; intro f; cases f <;> decide
  refine ⟨rfl, ?_⟩
  simp only [Status, hv]
  rfl

/-! ## Precedence of custom entries in `loadConfigurations` -/

theorem profile_kept_without_target (cluster : Cluster) (provider : Provider)
    (hg : ¬ targetIs provider "gcp") (ha : ¬ targetIs provider "aws")
    (hz : ¬ targetIs provider "azure") :
    (loadConfigurations cluster provider).get? "target_profile" =
      provider.CustomConfigurations.get? "target_profile" := by
  have ht := target_of_loadConfigurations cluster provider
  unfold targetIs at hg ha hz
  rw [loadConfigurations_eq]
  simp only [ht, GCP, AWS, Azure, hg, ha, hz, if_false, get?_copyEntries]
  cases provider.CustomConfigurations.get? "target_profile" with
  | some v => rfl
  | none => simp [typedEntries, Config.get?]

/-- C21: in the map built by `loadConfigurations`, a custom entry for one of the typed
keys `cluster_name`, `credentials_file_path`, `node_count`, `machine_type`, `disk_size`,
`kubernetes_version`, `location`, `namespace` is the binding of that key, as is every
custom entry for a key other than `target_profile`; `target_profile` is bound to the
profile constant (`gcp`, `aws`, `az`) when `target_provider` is gcp, aws or azure,
whatever the custom configuration holds for it, and otherwise has its custom value or
stays absent. -/
theorem loadConfigurations_custom_precedence (cluster : Cluster) (provider : Provider) :
    (∀ k ∈ ["cluster_name", "credentials_file_path", "node_count", "machine_type",
        "disk_size", "kubernetes_version", "location", "namespace"],
      ∀ v, provider.CustomConfigurations.get? k = some v →
        (loadConfigurations cluster provider).get? k = some v) ∧
    (∀ k v, k ≠ "target_profile" → provider.CustomConfigurations.get? k = some v →
      (loadConfigurations cluster provider).get? k = some v) ∧
    (targetIs provider "gcp" →
      (loadConfigurations cluster provider).get? "target_profile" = some (.str gcpProfile)) ∧
    (targetIs provider "aws" →
      (loadConfigurations cluster provider).get? "target_profile" = some (.str awsProfile)) ∧
    (targetIs provider "azure" →
      (loadConfigurations cluster provider).get? "target_profile" =
        some (.str azureProfile)) ∧
    (¬ targetIs provider "gcp" → ¬ targetIs provider "aws" → ¬ targetIs provider "azure" →
      (loadConfigurations cluster provider).get? "target_profile" =
        provider.CustomConfigurations.get? "target_profile") := by
  have kept : ∀ k v, k ≠ "target_profile" → provider.CustomConfigurations.get? k = some v →
      (loadConfigurations cluster provider).get? k = some v := by
    intro k v hk hc
    rw [get?_loadConfigurations cluster provider k hk, hc]
  obtain ⟨pg, pa, pz⟩ := profile_of_loadConfigurations cluster provider
  refine ⟨?_, kept, pg, pa, pz, profile_kept_without_target cluster provider⟩
  intro k hk v hc
  refine kept k v ?_ hc
  rintro rfl
  revert hk
  decide

/-- C21, at concrete inputs: a custom `cluster_name` replaces the cluster's name and a
custom `target_profile` is replaced by `gcp` when the target is gcp; without a
`target_provider` the custom `target_profile` is kept. -/
theorem loadConfigurations_custom_precedence_witness :
    (loadConfigurations sampleCluster (sampleProvider shadowingKeys)).get? "cluster_name" =
      some (.str "shadow") ∧
    (loadConfigurations sampleCluster (sampleProvider shadowingKeys)).get? "target_profile" =
      some (.str "gcp") ∧
    (loadConfigurations sampleCluster
      (sampleProvider [("target_profile", .str "my-profile")])).get? "target_profile" =
      some (.str "my-profile") :=
  ⟨(loadConfigurations_custom_precedence sampleCluster (sampleProvider shadowingKeys)).1
      "cluster_name" (by decide) _ (by decide),
   (loadConfigurations_custom_precedence sampleCluster (sampleProvider shadowingKeys)).2.2.1
      (by decide),
   (loadConfigurations_custom_precedence sampleCluster
      (sampleProvider [("target_profile", .str "my-profile")])).2.2.2.2.2
      (by decide) (by decide) (by decide)⟩

/-! ## Presence-only checks of the custom keys -/

theorem targetIs_set (p : Provider) (key : String) (w : Value) (t : ProviderType)
    (hk : key ≠ "target_provider") :
    targetIs { p with CustomConfigurations := p.CustomConfigurations.set key w } t ↔
      targetIs p t := by
  simp only [targetIs, get?_set, if_neg hk]

theorem present_set (p : Provider) (key : String) (w : Value) (k : String) :
    present { p with CustomConfigurations := p.CustomConfigurations.set key w } k ↔
      key = k ∨ present p k := by
  simp only [present, get?_set]
  by_cases h : key = k <;> simp [h]

theorem satisfied_set_iff (c : Cluster) (p : Provider) (key : String) (v w : Value)
    (hk : key ≠ "target_provider") (f : Field) :
    f.satisfied c { p with CustomConfigurations := p.CustomConfigurations.set key v } ↔
      f.satisfied c { p with CustomConfigurations := p.CustomConfigurations.set key w } := by
  cases f <;> simp only [Field.satisfied, targetIs_set p key _ _ hk, present_set]

theorem satisfied_set_of (c : Cluster) (p : Provider) (key : String) (w : Value)
    (hk : key ≠ "target_provider") (f : Field) (h : f.satisfied c p) :
    f.satisfied c { p with CustomConfigurations := p.CustomConfigurations.set key w } := by
  cases f <;> simp only [Field.satisfied, targetIs_set p key _ _ hk, present_set] at h ⊢ <;>
    first
      | exact h
      | exact Or.inr h
      | exact fun ht => Or.inr (h ht)

theorem report_of_custom_field (f : Field) (rep : Report)
    (hf : f ∈ [Field.targetSeed, Field.targetSecret, Field.diskType, Field.autoscalerMin,
      Field.autoscalerMax, Field.maxSurge, Field.maxUnavailable, Field.workercidr, Field.zone,
      Field.publicscidr, Field.vpccidr, Field.internalscidr, Field.vnetcidr])
    (hmem : (f, rep) ∈ reports) : rep = Report.cannotBeEmpty f.label := by
  simp only [List.mem_cons, List.mem_singleton, List.not_mem_nil, or_false] at hf
  rcases hf with rfl | rfl | rfl | rfl | rfl | rfl | rfl | rfl | rfl | rfl | rfl | rfl | rfl <;>
    simpa [reports, Field.label] using hmem

/-- C22: `validate` checks the mandatory custom keys (other than `target_provider`) for
presence only. Whether it accepts an input does not depend on the value bound to such
a key, so binding the key to the empty string in an accepted input leaves it accepted;
yet when the rule of such a key is violated, the error contains the cannot-be-empty
sentence for that key. -/
theorem validate_checks_presence_only (e : Errs) (cluster : Cluster) (provider : Provider)
    (key : String)
    (hk : key ∈ ["target_seed", "target_secret", "disk_type", "autoscaler_min",
      "autoscaler_max", "max_surge", "max_unavailable", "workercidr", "zone", "publicscidr",
      "vpccidr", "internalscidr", "vnetcidr"]) :
    (∀ v, validate e cluster
        { provider with CustomConfigurations := provider.CustomConfigurations.set key v }
          = none ↔
      validate e cluster
        { provider with
            CustomConfigurations := provider.CustomConfigurations.set key (.str "") }
          = none) ∧
    (validate e cluster provider = none →
      validate e cluster
        { provider with
            CustomConfigurations := provider.CustomConfigurations.set key (.str "") }
          = none) ∧
    (∀ f ∈ [Field.targetSeed, Field.targetSecret, Field.diskType, Field.autoscalerMin,
        Field.autoscalerMax, Field.maxSurge, Field.maxUnavailable, Field.workercidr,
        Field.zone, Field.publicscidr, Field.vpccidr, Field.internalscidr, Field.vnetcidr],
      ¬ f.satisfied cluster provider →
        ∃ msg, validate e cluster provider = some msg ∧
          Mentions msg (e.CannotBeEmpty f.label)) := by
  have hne : key ≠ "target_provider" := by
    rintro rfl
    revert hk
    decide
  refine ⟨?_, ?_, ?_⟩
  · intro v
    simp only [validate_none_iff]
    exact ⟨fun h f => (satisfied_set_iff cluster provider key v (.str "") hne f).1 (h f),
      fun h f => (satisfied_set_iff cluster provider key v (.str "") hne f).2 (h f)⟩
  · intro h
    rw [validate_none_iff] at h ⊢
    exact fun f => satisfied_set_of cluster provider key (.str "") hne f (h f)
  · intro f hf hviol
    obtain ⟨rep, hrep⟩ := raised_complete cluster provider f hviol
    have hrep' := report_of_custom_field f rep hf (raised_subset cluster provider _ hrep)
    subst hrep'
    have hocc := renderAll_occurs e _ _ hrep
    have hmsg : validateMessage e cluster provider ≠ "" := by
      intro h0
      have h1 : validate e cluster provider = none := by rw [validate_eq]; simp [h0]
      exact hviol ((validate_none_iff e cluster provider).1 h1 f)
    refine ⟨validatePrefix ++ validateMessage e cluster provider, ?_, ?_⟩
    · rw [validate_eq]; simp [hmsg]
    · simp only [Mentions, String.data_append, validateMessage_eq]
      exact occurs_append_left _ hocc

/-- C22, at concrete inputs: the valid gcp sample stays valid when `workercidr` and
`zone` are bound to the empty string, while leaving `zone` out is rejected with the
cannot-be-empty sentence for it. -/
theorem validate_checks_presence_only_witness :
    validate sampleErrs sampleCluster
      (sampleProvider (("workercidr", .str "") :: gcpKeys)) = none ∧
    validate sampleErrs sampleCluster
      (sampleProvider (("zone", .str "") :: gcpKeys)) = none ∧
    (∃ msg, validate sampleErrs sampleCluster (sampleProvider gcpBareKeys) = some msg ∧
      Mentions msg ("Provider.CustomConfigurations['zone']" ++ " cannot be empty, ")) := by
  have hv : validate sampleErrs sampleCluster (sampleProvider gcpKeys) = none := by
    rw [validate_none_iff]; intro f; cases f <;> decide
  exact ⟨(validate_checks_presence_only sampleErrs sampleCluster (sampleProvider gcpKeys)
      "workercidr" (by decide)).2.1 hv,
    (validate_checks_presence_only sampleErrs sampleCluster (sampleProvider gcpKeys)
      "zone" (by decide)).2.1 hv,
    (validate_checks_presence_only sampleErrs sampleCluster (sampleProvider gcpBareKeys)
      "zone" (by decide)).2.2 Field.zone (by decide) (by decide)⟩

end Hydroform
